import Mathlib

/-!
Formal model of the stock scoring script `src/finance.py`.

The script scores equities and ETFs against fixed threshold bands, evaluates
technical indicators, derives letter ratings from average scores, and ranks a
batch of instruments.  Numeric values are modelled by `ℚ` (Python floats are
used only for ordinary arithmetic and comparisons here), integer scores by
`ℕ`, absent dictionary entries by `Option`.  Network access (yfinance) and the
indicator math (the `ta` library) are external collaborators: the indicator
values they produce are passed in as an explicit `TechIndicators` argument.

Display formatting (the f-string conversions such as `:.2f`) is modelled by
executable functions producing decimal strings; the exact digits are cosmetic,
but the character-level structure of the technical comment lines matters
because the script re-parses the `(score=N)` suffixes out of them.
-/

/-! ### Decimal display helpers (model of Python f-string formatting) -/

/-- Maps a digit 0..9 to its character. -/
def digitChar : ℕ → Char
  | 0 => '0'
  | 1 => '1'
  | 2 => '2'
  | 3 => '3'
  | 4 => '4'
  | 5 => '5'
  | 6 => '6'
  | 7 => '7'
  | 8 => '8'
  | 9 => '9'
  | _ => '0'

/-- Fuelled base-10 digit expansion (most significant digit first). -/
def natDigitsAux : ℕ → ℕ → List Char
  | 0, _ => []
  | fuel + 1, n => if n < 10 then [digitChar n] else natDigitsAux fuel (n / 10) ++ [digitChar (n % 10)]

/-- Base-10 digit string of a natural number. -/
def natDigits (n : ℕ) : List Char := natDigitsAux (n + 1) n

/-- Rounding half to even, as Python float formatting does. -/
def roundHalfEven (q : ℚ) : ℤ :=
  let n := q.floor
  let frac := q - (n : ℚ)
  if (1 : ℚ) / 2 < frac then n + 1
  else if frac < (1 : ℚ) / 2 then n
  else if n % 2 = 0 then n else n + 1

/-- Model of the Python format conversion with two decimal places. -/
def fmt2 (q : ℚ) : String :=
  let r := roundHalfEven (q * 100)
  let sign := if r < 0 then "-" else ""
  let a := r.natAbs
  sign ++ String.mk (natDigits (a / 100)) ++ "." ++
    (if a % 100 < 10 then "0" else "") ++ String.mk (natDigits (a % 100))

/-- Model of the Python format conversion with one decimal place. -/
def fmt1 (q : ℚ) : String :=
  let r := roundHalfEven (q * 10)
  let sign := if r < 0 then "-" else ""
  let a := r.natAbs
  sign ++ String.mk (natDigits (a / 10)) ++ "." ++ String.mk (natDigits (a % 10))

/-- Model of the default Python number display used inside threshold notes
(integers without a decimal point, two-decimal values with trailing zeros
stripped).  Display-only. -/
def pyNum (q : ℚ) : String :=
  if q.den = 1 then
    (if q.num < 0 then "-" else "") ++ String.mk (natDigits q.num.natAbs)
  else
    String.mk (((fmt2 q).data.reverse.dropWhile (fun c => c == '0')).reverse)

/-- Model of the comma-grouped integer display used for ETF total assets.
The helper walks the reversed digit list inserting a separator every three
digits.  Display-only. -/
def commaRevAux : List Char → ℕ → List Char
  | [], _ => []
  | c :: cs, n => (if n ≠ 0 ∧ n % 3 = 0 then [',', c] else [c]) ++ commaRevAux cs (n + 1)

/-- Model of the Python format conversion with comma grouping and no
decimals. -/
def fmtComma (q : ℚ) : String :=
  let r := roundHalfEven q
  let sign := if r < 0 then "-" else ""
  sign ++ String.mk ((commaRevAux (natDigits r.natAbs).reverse 0).reverse)

/-! ### Python string-operation models

The script recovers the technical scores by scanning comment strings:
`int(s.split("(score=")[-1].rstrip(")"))` guarded by `"score=" in s`.
These helpers model the Python `in`, `split`, `rstrip` and `int` operations
on character lists. -/

/-- Model of the Python substring test `pat in s` on character lists. -/
def infixOfB (pat : List Char) : List Char → Bool
  | [] => pat.isEmpty
  | c :: cs => pat.isPrefixOf (c :: cs) || infixOfB pat cs

/-- Model of the Python substring test on strings. -/
def strContains (s pat : String) : Bool := infixOfB pat.data s.data

/-- Fuelled worker for the Python `str.split` with a non-empty separator:
scan left to right, cutting at each non-overlapping occurrence. -/
def pySplitAux (sep : List Char) : ℕ → List Char → List Char → List (List Char)
  | 0, s, acc => [acc.reverse ++ s]
  | _ + 1, [], acc => [acc.reverse]
  | fuel + 1, c :: cs, acc =>
    if sep.isPrefixOf (c :: cs) then
      acc.reverse :: pySplitAux sep fuel (List.drop sep.length (c :: cs)) []
    else
      pySplitAux sep fuel cs (c :: acc)

/-- Model of the Python `str.split` with a non-empty separator. -/
def pySplit (sep s : List Char) : List (List Char) := pySplitAux sep (s.length + 1) s []

/-- Model of the Python `str.rstrip(")")`. -/
def rstripParen (l : List Char) : List Char := (l.reverse.dropWhile (fun c => c == ')')).reverse

/-- Numeric value of a decimal digit character. -/
def digitVal (c : Char) : Option ℕ :=
  if '0' ≤ c ∧ c ≤ '9' then some (c.toNat - '0'.toNat) else none

/-- Model of the Python `int(...)` conversion on a digit string; `none`
stands for the `ValueError` the conversion raises on malformed input. -/
def pyInt (l : List Char) : Option ℕ :=
  match l with
  | [] => none
  | _ =>
    l.foldl (fun acc c =>
      match acc, digitVal c with
      | some a, some d => some (a * 10 + d)
      | _, _ => none) (some 0)

/-- Model of `int(s.split("(score=")[-1].rstrip(")"))` from the script. -/
def parseScoreTag (s : String) : Option ℕ :=
  match (pySplit "(score=".data s.data).getLast? with
  | some piece => pyInt (rstripParen piece)
  | none => none

/-- Model of the comprehension
`[int(s.split("(score=")[-1].rstrip(")")) for s in comments if "score=" in s]`;
each entry is `Option`-valued because `int` can fail. -/
def techScoresOf (comments : List String) : List (Option ℕ) :=
  (comments.filter (fun s => strContains s "score=")).map parseScoreTag

/-- Model of `sum(tech_scores)`; a failed parse contributes zero (the script
would instead have raised before reaching the sum, and the parse is proved
total on the comments actually produced). -/
def optSum (l : List (Option ℕ)) : ℕ := l.foldl (fun a o => a + o.getD 0) 0

/-! ### Threshold tables (`THRESHOLDS`, `ETF_THRESHOLDS`, technical bounds) -/

/-- Fundamental metric bands, from the `THRESHOLDS` dict. -/
def THRESHOLDS : List (String × ℚ × ℚ) :=
  [("PE", 10, 25),
   ("PB", 1, 5),
   ("Beta", 0.8, 1.2),
   ("ROE", 0.1, 0.2),
   ("DividendYield", 2, 6),
   ("PEG", 1, 2),
   ("OperatingMargin", 0.1, 0.3),
   ("DebtToEquity", 50, 100),
   ("CurrentRatio", 1, 2),
   ("QuickRatio", 1, 2),
   ("RevenueGrowth", 0.05, 0.2),
   ("EarningsGrowth", 0.05, 0.2)]

/-- ETF metric bands, from the `ETF_THRESHOLDS` dict. -/
def ETF_THRESHOLDS : List (String × ℚ × ℚ) :=
  [("ETF_PE", 10, 25),
   ("ETF_Yield", 2, 6),
   ("ETF_Beta3Y", 0.8, 1.2),
   ("threeYearAverageReturn", 0.03, 0.1),
   ("fiveYearAverageReturn", 0.03, 0.1),
   ("totalAssets", 1e11, 5e11)]

/-- RSI band from `TECHNICAL_THRESHOLDS`. -/
def TECHNICAL_RSI : ℚ × ℚ := (30, 70)

/-- ADX band from `TECHNICAL_THRESHOLDS`. -/
def TECHNICAL_ADX : ℚ × ℚ := (20, 40)

/-- Metric keys where a low value is favourable, from
`compare_with_threshold`. -/
def less_is_better : List String := ["PE", "PB", "PEG", "Beta", "DebtToEquity"]

/-- Metric keys where a high value is favourable, from
`compare_with_threshold`. -/
def more_is_better : List String :=
  ["ROE", "OperatingMargin", "DividendYield", "CurrentRatio",
   "QuickRatio", "RevenueGrowth", "EarningsGrowth"]

/-! ### Metric classifiers -/

/-- Model of `compare_with_threshold(value, metric_key)`: classifies one
fundamental metric value against its band, returning the level, the
explanatory note and the score.  An absent value or unknown key yields the
empty classification `(none, "", 0)`. -/
def compare_with_threshold (value : Option ℚ) (metric_key : String) :
    Option String × String × ℕ :=
  match THRESHOLDS.lookup metric_key, value with
  | some (low, high), some v =>
    if metric_key ∈ less_is_better then
      if v < low then (some "LOW", "明顯低於參考值(" ++ pyNum low ++ ")，對投資人相對有利", 10)
      else if v > high then (some "HIGH", "高於參考值(" ++ pyNum high ++ ")，需留意高估風險", 2)
      else (some "MID", "介於 " ++ pyNum low ++ " ~ " ++ pyNum high ++ " 的區間", 5)
    else if metric_key ∈ more_is_better then
      if v < low then
        let display_val :=
          if metric_key ∉ ["CurrentRatio", "QuickRatio"] then fmt2 (low * 100) ++ "%" else pyNum low
        (some "LOW", "低於參考值(" ++ display_val ++ ")", 2)
      else if v > high then
        let display_val :=
          if metric_key ∉ ["CurrentRatio", "QuickRatio"] then fmt2 (high * 100) ++ "%" else pyNum high
        (some "HIGH", "高於參考值(" ++ display_val ++ ")，值得肯定", 10)
      else
        let display_low :=
          if metric_key ∉ ["CurrentRatio", "QuickRatio"] then fmt2 (low * 100) ++ "%" else pyNum low
        let display_high :=
          if metric_key ∉ ["CurrentRatio", "QuickRatio"] then fmt2 (high * 100) ++ "%" else pyNum high
        (some "MID", "在 " ++ display_low ++ " ~ " ++ display_high ++ " 的合理範圍", 5)
    else (none, "", 0)
  | _, _ => (none, "", 0)

/-- Keys where a low ETF value is favourable, from
`etf_compare_with_threshold`. -/
def etf_less_is_better : List String := ["ETF_PE"]

/-- Keys where a high ETF value is favourable, from
`etf_compare_with_threshold`. -/
def etf_more_is_better : List String :=
  ["ETF_Yield", "totalAssets", "threeYearAverageReturn", "fiveYearAverageReturn"]

/-- Model of `etf_compare_with_threshold(value, metric_key)`.  The
`ETF_Beta3Y` key is special-cased before the direction sets, exactly as in
the script. -/
def etf_compare_with_threshold (value : Option ℚ) (metric_key : String) :
    Option String × String × ℕ :=
  match ETF_THRESHOLDS.lookup metric_key, value with
  | some (low, high), some v =>
    if metric_key = "ETF_Beta3Y" then
      if v < low then (some "LOW", "波動低於市場平均(" ++ pyNum low ++ ")", 6)
      else if v > high then (some "HIGH", "波動高於市場平均(" ++ pyNum high ++ ")，風險也較高", 4)
      else (some "MID", "在 " ++ pyNum low ++ " ~ " ++ pyNum high ++ " 的波動區間", 8)
    else if metric_key ∈ etf_less_is_better then
      if v < low then (some "LOW", "明顯低於參考值(" ++ pyNum low ++ ")，對投資人相對有利", 10)
      else if v > high then (some "HIGH", "高於參考值(" ++ pyNum high ++ ")，需留意高估風險", 2)
      else (some "MID", "介於 " ++ pyNum low ++ "~" ++ pyNum high ++ " 的區間", 5)
    else if metric_key ∈ etf_more_is_better then
      if v < low then (some "LOW", "低於參考值(" ++ pyNum low ++ ")", 2)
      else if v > high then (some "HIGH", "高於參考值(" ++ pyNum high ++ ")，表現不錯", 10)
      else (some "MID", "在 " ++ pyNum low ++ "~" ++ pyNum high ++ " 的區間", 5)
    else (none, "", 0)
  | _, _ => (none, "", 0)

/-! ### Technical evaluator (`technical_compare_with_threshold`) -/

/-- Technical indicator snapshot, the `indicators` dict computed from price
history by the external `ta` collaborator. -/
structure TechIndicators where
  RSI : Option ℚ
  MACD : Option ℚ
  MACD_Signal : Option ℚ
  SMA_50 : Option ℚ
  SMA_200 : Option ℚ
  ADX : Option ℚ
  Volume_Trend : Option String
deriving DecidableEq

/-- RSI block of the evaluator (comments, running total, running count). -/
def rsiStep (st : List String × ℕ × ℕ) (rsi : Option ℚ) : List String × ℕ × ℕ :=
  match rsi with
  | some r =>
    if r < TECHNICAL_RSI.1 then
      (st.1 ++ ["- RSI: " ++ fmt2 r ++ "（超賣，可能反彈） (score=8)"], st.2.1 + 8, st.2.2 + 1)
    else if r > TECHNICAL_RSI.2 then
      (st.1 ++ ["- RSI: " ++ fmt2 r ++ "（超買，可能回調） (score=6)"], st.2.1 + 6, st.2.2 + 1)
    else
      (st.1 ++ ["- RSI: " ++ fmt2 r ++ "（正常範圍） (score=7)"], st.2.1 + 7, st.2.2 + 1)
  | none => (st.1 ++ ["- RSI: 資料缺失"], st.2.1, st.2.2)

/-- MACD block of the evaluator; both the line and the signal must be
present. -/
def macdStep (st : List String × ℕ × ℕ) (macd macd_signal : Option ℚ) :
    List String × ℕ × ℕ :=
  match macd, macd_signal with
  | some m, some s =>
    if m > s then
      (st.1 ++ ["- MACD: 正值（買入信號） (score=8)"], st.2.1 + 8, st.2.2 + 1)
    else
      (st.1 ++ ["- MACD: 負值（賣出信號） (score=6)"], st.2.1 + 6, st.2.2 + 1)
  | _, _ => (st.1 ++ ["- MACD: 資料缺失"], st.2.1, st.2.2)

/-- Moving-average block of the evaluator; both averages must be present. -/
def smaStep (st : List String × ℕ × ℕ) (sma_50 sma_200 : Option ℚ) :
    List String × ℕ × ℕ :=
  match sma_50, sma_200 with
  | some a, some b =>
    if a > b then
      (st.1 ++ ["- SMA50 > SMA200（黃金交叉，趨勢向上） (score=9)"], st.2.1 + 9, st.2.2 + 1)
    else
      (st.1 ++ ["- SMA50 < SMA200（死亡交叉，趨勢向下） (score=5)"], st.2.1 + 5, st.2.2 + 1)
  | _, _ => (st.1 ++ ["- SMA50/SMA200: 資料缺失"], st.2.1, st.2.2)

/-- ADX block of the evaluator. -/
def adxStep (st : List String × ℕ × ℕ) (adx : Option ℚ) : List String × ℕ × ℕ :=
  match adx with
  | some a =>
    if a < TECHNICAL_ADX.1 then
      (st.1 ++ ["- ADX: " ++ fmt2 a ++ "（趨勢弱） (score=5)"], st.2.1 + 5, st.2.2 + 1)
    else if a > TECHNICAL_ADX.2 then
      (st.1 ++ ["- ADX: " ++ fmt2 a ++ "（趨勢強） (score=8)"], st.2.1 + 8, st.2.2 + 1)
    else
      (st.1 ++ ["- ADX: " ++ fmt2 a ++ "（趨勢中等） (score=6)"], st.2.1 + 6, st.2.2 + 1)
  | none => (st.1 ++ ["- ADX: 資料缺失"], st.2.1, st.2.2)

/-- Volume-trend block of the evaluator. -/
def volStep (st : List String × ℕ × ℕ) (volume_trend : Option String) :
    List String × ℕ × ℕ :=
  match volume_trend with
  | some t =>
    if t = "increasing" then
      (st.1 ++ ["- 成交量趨勢: 增加中（趨勢確認） (score=7)"], st.2.1 + 7, st.2.2 + 1)
    else if t = "decreasing" then
      (st.1 ++ ["- 成交量趨勢: 減少中（趨勢可能弱化） (score=5)"], st.2.1 + 5, st.2.2 + 1)
    else
      (st.1 ++ ["- 成交量趨勢: 無明顯趨勢 (score=6)"], st.2.1 + 6, st.2.2 + 1)
  | none => (st.1 ++ ["- 成交量趨勢: 資料缺失"], st.2.1, st.2.2)

/-- Model of `technical_compare_with_threshold(indicators)`: runs the five
indicator blocks in source order and returns the comment list, the total
score and the average (`0` when no indicator was valid). -/
def technical_compare_with_threshold (indicators : TechIndicators) :
    List String × ℕ × ℚ :=
  let st := rsiStep ([], 0, 0) indicators.RSI
  let st := macdStep st indicators.MACD indicators.MACD_Signal
  let st := smaStep st indicators.SMA_50 indicators.SMA_200
  let st := adxStep st indicators.ADX
  let st := volStep st indicators.Volume_Trend
  let avg_score : ℚ := if 0 < st.2.2 then (st.2.1 : ℚ) / (st.2.2 : ℚ) else 0
  (st.1, st.2.1, avg_score)

/-! ### Specification-side decomposition of the technical evaluator.

These definitions restate the five scoring rules independently, in the
wording of the specification; the theorems below prove that the sequential
evaluator agrees with them. -/

/-- Oscillator rule: below 30 scores 8, above 70 scores 6, otherwise 7. -/
def rsiScore : Option ℚ → ℕ
  | some r => if r < 30 then 8 else if r > 70 then 6 else 7
  | none => 0

/-- Whether the oscillator contributes to the valid count. -/
def rsiCount : Option ℚ → ℕ
  | some _ => 1
  | none => 0

/-- Trend/signal rule: both present, trend above signal scores 8 else 6. -/
def macdScore : Option ℚ → Option ℚ → ℕ
  | some m, some s => if m > s then 8 else 6
  | _, _ => 0

/-- Whether the trend/signal pair contributes to the valid count. -/
def macdCount : Option ℚ → Option ℚ → ℕ
  | some _, some _ => 1
  | _, _ => 0

/-- Moving-average rule: both present, short above long scores 9 else 5. -/
def smaScore : Option ℚ → Option ℚ → ℕ
  | some a, some b => if a > b then 9 else 5
  | _, _ => 0

/-- Whether the moving-average pair contributes to the valid count. -/
def smaCount : Option ℚ → Option ℚ → ℕ
  | some _, some _ => 1
  | _, _ => 0

/-- Trend-strength rule: below 20 scores 5, above 40 scores 8, otherwise 6. -/
def adxScore : Option ℚ → ℕ
  | some a => if a < 20 then 5 else if a > 40 then 8 else 6
  | none => 0

/-- Whether the trend-strength value contributes to the valid count. -/
def adxCount : Option ℚ → ℕ
  | some _ => 1
  | none => 0

/-- Volume-trend rule: increasing 7, decreasing 5, anything else 6. -/
def volScore : Option String → ℕ
  | some t => if t = "increasing" then 7 else if t = "decreasing" then 5 else 6
  | none => 0

/-- Whether the volume trend contributes to the valid count. -/
def volCount : Option String → ℕ
  | some _ => 1
  | none => 0

/-- Sum of the five independent signal scores. -/
def techTotal (ind : TechIndicators) : ℕ :=
  rsiScore ind.RSI + macdScore ind.MACD ind.MACD_Signal +
    smaScore ind.SMA_50 ind.SMA_200 + adxScore ind.ADX + volScore ind.Volume_Trend

/-- Number of present (contributing) signals. -/
def techValidCount (ind : TechIndicators) : ℕ :=
  rsiCount ind.RSI + macdCount ind.MACD ind.MACD_Signal +
    smaCount ind.SMA_50 ind.SMA_200 + adxCount ind.ADX + volCount ind.Volume_Trend

/-- Comment lines produced by the oscillator block. -/
def rsiComments : Option ℚ → List String
  | some r =>
    if r < 30 then ["- RSI: " ++ fmt2 r ++ "（超賣，可能反彈） (score=8)"]
    else if r > 70 then ["- RSI: " ++ fmt2 r ++ "（超買，可能回調） (score=6)"]
    else ["- RSI: " ++ fmt2 r ++ "（正常範圍） (score=7)"]
  | none => ["- RSI: 資料缺失"]

/-- Comment lines produced by the trend/signal block. -/
def macdComments : Option ℚ → Option ℚ → List String
  | some m, some s =>
    if m > s then ["- MACD: 正值（買入信號） (score=8)"]
    else ["- MACD: 負值（賣出信號） (score=6)"]
  | _, _ => ["- MACD: 資料缺失"]

/-- Comment lines produced by the moving-average block. -/
def smaComments : Option ℚ → Option ℚ → List String
  | some a, some b =>
    if a > b then ["- SMA50 > SMA200（黃金交叉，趨勢向上） (score=9)"]
    else ["- SMA50 < SMA200（死亡交叉，趨勢向下） (score=5)"]
  | _, _ => ["- SMA50/SMA200: 資料缺失"]

/-- Comment lines produced by the trend-strength block. -/
def adxComments : Option ℚ → List String
  | some a =>
    if a < 20 then ["- ADX: " ++ fmt2 a ++ "（趨勢弱） (score=5)"]
    else if a > 40 then ["- ADX: " ++ fmt2 a ++ "（趨勢強） (score=8)"]
    else ["- ADX: " ++ fmt2 a ++ "（趨勢中等） (score=6)"]
  | none => ["- ADX: 資料缺失"]

/-- Comment lines produced by the volume-trend block. -/
def volComments : Option String → List String
  | some t =>
    if t = "increasing" then ["- 成交量趨勢: 增加中（趨勢確認） (score=7)"]
    else if t = "decreasing" then ["- 成交量趨勢: 減少中（趨勢可能弱化） (score=5)"]
    else ["- 成交量趨勢: 無明顯趨勢 (score=6)"]
  | none => ["- 成交量趨勢: 資料缺失"]

/-- All comment lines of the evaluator, one block after another. -/
def techComments (ind : TechIndicators) : List String :=
  rsiComments ind.RSI ++ macdComments ind.MACD ind.MACD_Signal ++
    smaComments ind.SMA_50 ind.SMA_200 ++ adxComments ind.ADX ++
    volComments ind.Volume_Trend

/-- Scores of the present signals, in evaluation order. -/
def rsiScores : Option ℚ → List ℕ
  | some r => [if r < 30 then 8 else if r > 70 then 6 else 7]
  | none => []

/-- Score list of the trend/signal block. -/
def macdScores : Option ℚ → Option ℚ → List ℕ
  | some m, some s => [if m > s then 8 else 6]
  | _, _ => []

/-- Score list of the moving-average block. -/
def smaScores : Option ℚ → Option ℚ → List ℕ
  | some a, some b => [if a > b then 9 else 5]
  | _, _ => []

/-- Score list of the trend-strength block. -/
def adxScores : Option ℚ → List ℕ
  | some a => [if a < 20 then 5 else if a > 40 then 8 else 6]
  | none => []

/-- Score list of the volume-trend block. -/
def volScores : Option String → List ℕ
  | some t => [if t = "increasing" then 7 else if t = "decreasing" then 5 else 6]
  | none => []

/-- All contributing scores of the evaluator, in order. -/
def techScoreList (ind : TechIndicators) : List ℕ :=
  rsiScores ind.RSI ++ macdScores ind.MACD ind.MACD_Signal ++
    smaScores ind.SMA_50 ind.SMA_200 ++ adxScores ind.ADX ++
    volScores ind.Volume_Trend

/-! ### Instrument data and the letter-rating rule -/

/-- Snapshot of the yfinance `info` dict: the named fields the script reads.
Absent dictionary keys are `none`. -/
structure Info where
  quoteType : Option String
  symbol : Option String
  shortName : Option String
  trailingPE : Option ℚ
  priceToBook : Option ℚ
  beta : Option ℚ
  returnOnEquity : Option ℚ
  dividendYield : Option ℚ
  trailingPegRatio : Option ℚ
  pegRatio : Option ℚ
  operatingMargins : Option ℚ
  debtToEquity : Option ℚ
  currentRatio : Option ℚ
  quickRatio : Option ℚ
  revenueGrowth : Option ℚ
  earningsQuarterlyGrowth : Option ℚ
  earningsGrowth : Option ℚ
  yieldField : Option ℚ
  totalAssets : Option ℚ
  beta3Year : Option ℚ
  threeYearAverageReturn : Option ℚ
  fiveYearAverageReturn : Option ℚ
deriving DecidableEq

/-- Model of the Python `a or b` idiom on optional numbers: a present
non-zero value wins, otherwise the second operand is returned (`0.0` is
falsy in Python). -/
def pyOrOpt (a b : Option ℚ) : Option ℚ :=
  match a with
  | some x => if x ≠ 0 then some x else b
  | none => b

/-- Letter-rating chain shared (inline, with identical code) by the
fundamental, technical and overall rating sites of the script. -/
def score_to_rating (avg : ℚ) : String :=
  if avg ≥ 8 then "A"
  else if avg ≥ 5 then "B"
  else if avg ≥ 3 then "C"
  else "D"

/-- Result record of one instrument analysis, the dict returned by
`advanced_equity_analysis` / `advanced_etf_analysis` / `analyze_ticker`. -/
structure EquityResult where
  symbol : String
  shortName : String
  fundamental_total_score : ℕ
  fundamental_avg_score : ℚ
  fundamental_rating : String
  technical_total_score : ℕ
  technical_avg_score : ℚ
  technical_rating : String
  analysis_text : String
deriving DecidableEq

/-- Fundamental metric dict of `advanced_equity_analysis`, in insertion
order, including the dividend-yield scaling by 100 and the Python `or`
fallbacks for PEG and earnings growth. -/
def equityMetrics (info : Info) : List (String × Option ℚ) :=
  let dividend_yield := info.dividendYield.map (fun v => v * 100)
  let peg := pyOrOpt info.trailingPegRatio info.pegRatio
  let earnings_growth := pyOrOpt info.earningsQuarterlyGrowth info.earningsGrowth
  [("PE", info.trailingPE),
   ("PB", info.priceToBook),
   ("Beta", info.beta),
   ("ROE", info.returnOnEquity),
   ("DividendYield", dividend_yield),
   ("PEG", peg),
   ("OperatingMargin", info.operatingMargins),
   ("DebtToEquity", info.debtToEquity),
   ("CurrentRatio", info.currentRatio),
   ("QuickRatio", info.quickRatio),
   ("RevenueGrowth", info.revenueGrowth),
   ("EarningsGrowth", earnings_growth)]

/-- Display formatting of one fundamental metric value, from the loop body
of `advanced_equity_analysis`. -/
def displayOf (k : String) (v : ℚ) : String :=
  if k ∈ ["OperatingMargin", "RevenueGrowth", "EarningsGrowth", "ROE"] then fmt2 (v * 100) ++ "%"
  else if k = "DividendYield" then fmt2 v ++ "%"
  else fmt2 v

/-- Body of the fundamental scoring loop: a missing value is recorded and
skipped, a present value is classified, displayed and accumulated. -/
def fundStep (st : List String × ℕ × ℕ) (kv : String × Option ℚ) :
    List String × ℕ × ℕ :=
  match kv.2 with
  | none => (st.1 ++ ["- " ++ kv.1 ++ ": 資料缺失"], st.2.1, st.2.2)
  | some v =>
    let r := compare_with_threshold (some v) kv.1
    (st.1 ++ ["- " ++ kv.1 ++ ": " ++ displayOf kv.1 v ++ " => " ++ r.2.1 ++
        " (score=" ++ String.mk (natDigits r.2.2) ++ ")"],
      st.2.1 + r.2.2, st.2.2 + 1)

/-- Shared tail of both analyses (the script repeats this code verbatim):
derives the technical total, average and rating by re-parsing the
`(score=N)` suffixes out of the comment lines.  Returns the augmented
comments, the total, the average and the rating. -/
def technicalSummary (technical_comments : List String) :
    List String × ℕ × ℚ × String :=
  if !technical_comments.isEmpty &&
      !(technical_comments.all (fun c =>
        strContains c "資料缺失" || strContains c "無歷史價格數據")) then
    let tech_scores := techScoresOf technical_comments
    if !tech_scores.isEmpty then
      let technical_total_score := optSum tech_scores
      let technical_valid_count := tech_scores.length
      let technical_avg_score : ℚ := (technical_total_score : ℚ) / (technical_valid_count : ℚ)
      let technical_rating := score_to_rating technical_avg_score
      (technical_comments ++
        ["\n【技術面評級】平均分數 " ++ fmt1 technical_avg_score ++ " → 等級 " ++ technical_rating],
        technical_total_score, technical_avg_score, technical_rating)
    else
      (technical_comments ++ ["\n【技術面評級】指標不足，無法評級"], 0, 0, "無法評級")
  else
    (technical_comments ++ ["\n【技術面評級】指標不足，無法評級"], 0, 0, "無法評級")

/-- Technical comment lines for an instrument: the evaluator output when
price history was available, the no-history line otherwise.  The history
fetch and indicator math are the external collaborators. -/
def technicalCommentsOf (techData : Option TechIndicators) : List String :=
  match techData with
  | some ind => (technical_compare_with_threshold ind).1
  | none => ["- 技術指標: 無歷史價格數據，無法計算技術指標"]

/-- Model of `advanced_equity_analysis(info)`.  The technical indicator
snapshot (computed by the external collaborators from price history) is an
explicit argument; `none` models an empty history. -/
def advanced_equity_analysis (info : Info) (techData : Option TechIndicators) :
    EquityResult :=
  let symbol := info.symbol.getD "UNKNOWN"
  let short_name := info.shortName.getD ""
  let fstate := (equityMetrics info).foldl fundStep
    (["**[基本面分析] " ++ symbol ++ " / " ++ short_name ++ "**"], 0, 0)
  let fundamental_total_score := fstate.2.1
  let fundamental_valid_count := fstate.2.2
  let fundamental_avg_score : ℚ :=
    if 0 < fundamental_valid_count then
      (fundamental_total_score : ℚ) / (fundamental_valid_count : ℚ)
    else 0
  let fundamental_rating :=
    if 0 < fundamental_valid_count then score_to_rating fundamental_avg_score else "無法評級"
  let fundamental_comments := fstate.1 ++
    [if 0 < fundamental_valid_count then
      "\n【基本面評級】平均分數 " ++ fmt1 fundamental_avg_score ++ " → 等級 " ++ fundamental_rating
     else "\n【基本面評級】指標不足，無法評級"]
  let ts := technicalSummary (technicalCommentsOf techData)
  ⟨symbol, short_name, fundamental_total_score, fundamental_avg_score, fundamental_rating,
    ts.2.1, ts.2.2.1, ts.2.2.2,
    String.intercalate "\n" (fundamental_comments ++ ts.1)⟩

/-- ETF fundamental metric dict, in insertion order, including the yield
scaling by 100. -/
def etfMetrics (info : Info) : List (String × Option ℚ) :=
  let etf_yield := info.yieldField.map (fun v => v * 100)
  [("ETF_PE", info.trailingPE),
   ("ETF_Yield", etf_yield),
   ("totalAssets", info.totalAssets),
   ("ETF_Beta3Y", info.beta3Year),
   ("threeYearAverageReturn", info.threeYearAverageReturn),
   ("fiveYearAverageReturn", info.fiveYearAverageReturn)]

/-- Display formatting of one ETF metric value. -/
def etfDisplayOf (k : String) (v : ℚ) : String :=
  if k ∈ ["ETF_Yield"] then fmt2 v ++ "%"
  else if k ∈ ["threeYearAverageReturn", "fiveYearAverageReturn"] then fmt2 (v * 100) ++ "%"
  else if k = "totalAssets" then fmtComma v
  else fmt2 v

/-- Body of the ETF fundamental scoring loop. -/
def etfFundStep (st : List String × ℕ × ℕ) (kv : String × Option ℚ) :
    List String × ℕ × ℕ :=
  match kv.2 with
  | none => (st.1 ++ ["- " ++ kv.1 ++ ": 資料缺失"], st.2.1, st.2.2)
  | some v =>
    let r := etf_compare_with_threshold (some v) kv.1
    (st.1 ++ ["- " ++ kv.1 ++ ": " ++ etfDisplayOf kv.1 v ++ " => " ++ r.2.1 ++
        " (score=" ++ String.mk (natDigits r.2.2) ++ ")"],
      st.2.1 + r.2.2, st.2.2 + 1)

/-- Model of `advanced_etf_analysis(info)`. -/
def advanced_etf_analysis (info : Info) (techData : Option TechIndicators) :
    EquityResult :=
  let symbol := info.symbol.getD "UNKNOWN"
  let short_name := info.shortName.getD ""
  let fstate := (etfMetrics info).foldl etfFundStep
    (["**[基本面分析] " ++ symbol ++ " / " ++ short_name ++ "**"], 0, 0)
  let fundamental_total_score := fstate.2.1
  let fundamental_valid_count := fstate.2.2
  let fundamental_avg_score : ℚ :=
    if 0 < fundamental_valid_count then
      (fundamental_total_score : ℚ) / (fundamental_valid_count : ℚ)
    else 0
  let fundamental_rating :=
    if 0 < fundamental_valid_count then score_to_rating fundamental_avg_score else "無法評級"
  let fundamental_comments := fstate.1 ++
    [if 0 < fundamental_valid_count then
      "\n【基本面評級】平均分數 " ++ fmt1 fundamental_avg_score ++ " → 等級 " ++ fundamental_rating
     else "\n【基本面評級】指標不足，無法評級"]
  let ts := technicalSummary (technicalCommentsOf techData)
  ⟨symbol, short_name, fundamental_total_score, fundamental_avg_score, fundamental_rating,
    ts.2.1, ts.2.2.1, ts.2.2.2,
    String.intercalate "\n" (fundamental_comments ++ ts.1)⟩

/-- Model of `analyze_ticker(ticker_symbol)`: dispatch on the quote type;
an unrecognised type yields the zero-score, unratable record.  The fetched
`info` dict and indicator snapshot are explicit arguments (network access
is the external collaborator). -/
def analyze_ticker (ticker_symbol : String) (info : Info)
    (techData : Option TechIndicators) : EquityResult :=
  let quote_type := info.quoteType.getD ""
  if quote_type = "EQUITY" then advanced_equity_analysis info techData
  else if quote_type = "ETF" then advanced_etf_analysis info techData
  else
    ⟨ticker_symbol, info.shortName.getD "", 0, 0, "無法評級", 0, 0, "無法評級",
      ticker_symbol ++ " quoteType=" ++ quote_type ++ "，暫不支援進階分析。"⟩

/-- Model of the analysis loop of the main block: each instrument is
analysed independently. -/
def batchAnalyze (items : List (String × Info × Option TechIndicators)) :
    List EquityResult :=
  items.map (fun t => analyze_ticker t.1 t.2.1 t.2.2)

/-! ### Batch ranking (the main block) -/

/-- Result record extended with the overall blended fields added by the
main block. -/
structure OverallResult extends EquityResult where
  overall_avg_score : ℚ
  overall_total_score : ℕ
  overall_rating : String
deriving DecidableEq

/-- Overall blending step of the main block: the overall average is the
plain mean of the fundamental and technical averages, the overall total
their sum, and the overall rating follows the shared letter-band chain. -/
def add_overall (r : EquityResult) : OverallResult :=
  ⟨r, (r.fundamental_avg_score + r.technical_avg_score) / 2,
    r.fundamental_total_score + r.technical_total_score,
    score_to_rating ((r.fundamental_avg_score + r.technical_avg_score) / 2)⟩

/-- Overall blending over the whole result list. -/
def process_batch (rs : List EquityResult) : List OverallResult :=
  rs.map add_overall

/-- Stable insertion of a result into a list sorted by descending overall
average: the new element goes after every element with an equal or larger
key. -/
def insertDesc (r : OverallResult) : List OverallResult → List OverallResult
  | [] => [r]
  | x :: xs =>
    if r.overall_avg_score ≤ x.overall_avg_score then x :: insertDesc r xs
    else r :: x :: xs

/-- Model of `sorted(resultList, key=..., reverse=True)`.  The Python
builtin is a stable sort; a stable sort is extensionally unique, so the
stable insertion sort below computes the same list. -/
def sortDesc (l : List OverallResult) : List OverallResult :=
  l.foldl (fun acc r => insertDesc r acc) []

/-- Full ranking pipeline of the main block. -/
def sorted_results (rs : List EquityResult) : List OverallResult :=
  sortDesc (process_batch rs)

/-! ### Dynamically typed value model

The yfinance dict is untyped: a field can hold a number, a string, or be
absent.  The script only guards against `None`; the model below follows the
Python semantics for the other cases, where comparing a string with a number
raises `TypeError`.  `Except` models raised exceptions. -/

/-- Python value as stored in the info dict: a number, a string, or None. -/
inductive PyVal where
  | num (q : ℚ)
  | str (s : String)
  | pynone
deriving DecidableEq

/-- Python truthiness of a value. -/
def pyTruthy : PyVal → Bool
  | .num q => q != 0
  | .str s => !s.isEmpty
  | .pynone => false

/-- Model of the Python `a or b` on dynamic values. -/
def pyOr (a b : PyVal) : PyVal := if pyTruthy a then a else b

/-- String repetition, for the Python `s * n` on a string operand. -/
def strRepeat : ℕ → String → String
  | 0, _ => ""
  | n + 1, s => s ++ strRepeat n s

/-- Model of `v * 100` on a dynamic value (string repetition for strings;
the None case cannot be reached because the script guards it). -/
def pyTimes100 : PyVal → PyVal
  | .num q => .num (q * 100)
  | .str s => .str (strRepeat 100 s)
  | .pynone => .pynone

/-- Model of `compare_with_threshold` on a dynamically typed value.  A
string value reaching the `value < low` comparison raises `TypeError`. -/
def pyCwt (value : PyVal) (metric_key : String) :
    Except String (Option String × String × ℕ) :=
  match THRESHOLDS.lookup metric_key with
  | none => .ok (none, "", 0)
  | some _ =>
    match value with
    | .pynone => .ok (none, "", 0)
    | .num v => .ok (compare_with_threshold (some v) metric_key)
    | .str _ =>
      if metric_key ∈ less_is_better ∨ metric_key ∈ more_is_better then .error "TypeError"
      else .ok (none, "", 0)

/-- Model of the loop body of `advanced_equity_analysis` on dynamic values;
the display conversion `:.2f` on a non-number raises as well, but the
classification raises first. -/
def pyFundStep (st : List String × ℕ × ℕ) (kv : String × PyVal) :
    Except String (List String × ℕ × ℕ) :=
  match kv.2 with
  | .pynone => .ok (st.1 ++ ["- " ++ kv.1 ++ ": 資料缺失"], st.2.1, st.2.2)
  | .num q =>
    (pyCwt (.num q) kv.1).map (fun r =>
      (st.1 ++ ["- " ++ kv.1 ++ ": " ++ displayOf kv.1 q ++ " => " ++ r.2.1 ++
          " (score=" ++ String.mk (natDigits r.2.2) ++ ")"],
        st.2.1 + r.2.2, st.2.2 + 1))
  | .str s => (pyCwt (.str s) kv.1).bind (fun _ => .error "ValueError")

/-- Dynamic snapshot of the equity metric fields. -/
structure PyInfo where
  trailingPE : PyVal
  priceToBook : PyVal
  beta : PyVal
  returnOnEquity : PyVal
  dividendYield : PyVal
  trailingPegRatio : PyVal
  pegRatio : PyVal
  operatingMargins : PyVal
  debtToEquity : PyVal
  currentRatio : PyVal
  quickRatio : PyVal
  revenueGrowth : PyVal
  earningsQuarterlyGrowth : PyVal
  earningsGrowth : PyVal
deriving DecidableEq

/-- Dynamic metric dict of `advanced_equity_analysis`, with the guarded
dividend-yield scaling and the `or` fallbacks. -/
def pyEquityMetrics (info : PyInfo) : List (String × PyVal) :=
  let dividend_yield :=
    match info.dividendYield with
    | .pynone => .pynone
    | v => pyTimes100 v
  let peg := pyOr info.trailingPegRatio info.pegRatio
  let earnings_growth := pyOr info.earningsQuarterlyGrowth info.earningsGrowth
  [("PE", info.trailingPE),
   ("PB", info.priceToBook),
   ("Beta", info.beta),
   ("ROE", info.returnOnEquity),
   ("DividendYield", dividend_yield),
   ("PEG", peg),
   ("OperatingMargin", info.operatingMargins),
   ("DebtToEquity", info.debtToEquity),
   ("CurrentRatio", info.currentRatio),
   ("QuickRatio", info.quickRatio),
   ("RevenueGrowth", info.revenueGrowth),
   ("EarningsGrowth", earnings_growth)]

/-- Fundamental scoring loop on dynamic values: any raised exception
propagates out of the fold. -/
def py_score_fundamentals (info : PyInfo) : Except String (List String × ℕ × ℕ) :=
  (pyEquityMetrics info).foldlM pyFundStep ([], 0, 0)

/-- Whether a dynamic value is a number or None (the only shapes the
numeric model covers). -/
def isNumOrNone : PyVal → Bool
  | .str _ => false
  | _ => true

/-- Projection of a numeric-or-None dynamic value to the typed model. -/
def demoteKV (kv : String × PyVal) : String × Option ℚ :=
  match kv.2 with
  | .num q => (kv.1, some q)
  | _ => (kv.1, none)

/-! ### Specification-side fundamental aggregates and sample data -/

/-- Scores of the present metrics of a metric list, in order. -/
def presentScores (ms : List (String × Option ℚ)) : List ℕ :=
  ms.filterMap (fun kv => kv.2.map (fun v => (compare_with_threshold (some v) kv.1).2.2))

/-- Fundamental total of an equity snapshot: sum of the scores of exactly
the present metrics. -/
def fundTotal (info : Info) : ℕ := (presentScores (equityMetrics info)).sum

/-- Fundamental valid count of an equity snapshot: number of present
metrics. -/
def fundCount (info : Info) : ℕ :=
  ((equityMetrics info).filter (fun kv => kv.2.isSome)).length

/-- Sample scored instrument for concrete instantiations. -/
def sampleEquityResult : EquityResult := ⟨"AAA", "Alpha", 60, 5, "B", 35, 5, "B", "text"⟩

/-- Sample ranked instrument X with overall average 5. -/
def sampleX : OverallResult := ⟨⟨"X", "X co", 30, 5, "B", 20, 5, "B", "x"⟩, 5, 50, "B"⟩

/-- Sample ranked instrument Y with overall average 7. -/
def sampleY : OverallResult := ⟨⟨"Y", "Y co", 42, 7, "B", 28, 7, "B", "y"⟩, 7, 70, "B"⟩

/-- Sample ranked instrument Z with overall average 5. -/
def sampleZ : OverallResult := ⟨⟨"Z", "Z co", 30, 5, "B", 20, 5, "B", "z"⟩, 5, 50, "B"⟩

/-- Snapshot with every field absent. -/
def infoNone : Info :=
  ⟨none, none, none, none, none, none, none, none, none, none, none,
   none, none, none, none, none, none, none, none, none, none, none⟩

/-- Equity snapshot where only the raw dividend yield (3 percent, stored as
0.03) is present. -/
def infoDY : Info :=
  ⟨none, none, none, none, none, none, none, some 0.03, none, none, none,
   none, none, none, none, none, none, none, none, none, none, none⟩

/-- ETF snapshot where only the raw yield (stored as 0.03) is present. -/
def infoEY : Info :=
  ⟨none, none, none, none, none, none, none, none, none, none, none,
   none, none, none, none, none, none, some 0.03, none, none, none, none⟩

/-- Snapshot of an instrument of an unsupported class. -/
def infoCrypto : Info :=
  ⟨some "CRYPTOCURRENCY", some "BTC-USD", some "Bitcoin", none, none, none, none,
   none, none, none, none, none, none, none, none, none, none, none, none,
   none, none, none⟩

/-- Dynamic equity snapshot whose PE field holds a string. -/
def pyInfoStrPE : PyInfo :=
  ⟨.str "N/A", .pynone, .pynone, .pynone, .pynone, .pynone, .pynone,
   .pynone, .pynone, .pynone, .pynone, .pynone, .pynone, .pynone⟩

/-! ### Lemmas: decomposition of the technical evaluator -/

/-- The RSI block appends its comments and adds its score and count. -/
theorem rsiStep_eq (st : List String × ℕ × ℕ) (r : Option ℚ) :
    rsiStep st r = (st.1 ++ rsiComments r, st.2.1 + rsiScore r, st.2.2 + rsiCount r) := by
  cases r with
  | none => simp [rsiStep, rsiComments, rsiScore, rsiCount]
  | some v =>
    simp only [rsiStep, rsiComments, rsiScore, rsiCount, TECHNICAL_RSI]
    split_ifs <;> simp

/-- The MACD block appends its comments and adds its score and count. -/
theorem macdStep_eq (st : List String × ℕ × ℕ) (m s : Option ℚ) :
    macdStep st m s =
      (st.1 ++ macdComments m s, st.2.1 + macdScore m s, st.2.2 + macdCount m s) := by
  cases m <;> cases s <;>
    simp only [macdStep, macdComments, macdScore, macdCount] <;>
    (try split_ifs) <;> simp

/-- The moving-average block appends its comments and adds its score and
count. -/
theorem smaStep_eq (st : List String × ℕ × ℕ) (a b : Option ℚ) :
    smaStep st a b =
      (st.1 ++ smaComments a b, st.2.1 + smaScore a b, st.2.2 + smaCount a b) := by
  cases a <;> cases b <;>
    simp only [smaStep, smaComments, smaScore, smaCount] <;>
    (try split_ifs) <;> simp

/-- The ADX block appends its comments and adds its score and count. -/
theorem adxStep_eq (st : List String × ℕ × ℕ) (a : Option ℚ) :
    adxStep st a = (st.1 ++ adxComments a, st.2.1 + adxScore a, st.2.2 + adxCount a) := by
  cases a with
  | none => simp [adxStep, adxComments, adxScore, adxCount]
  | some v =>
    simp only [adxStep, adxComments, adxScore, adxCount, TECHNICAL_ADX]
    split_ifs <;> simp

/-- The volume-trend block appends its comments and adds its score and
count. -/
theorem volStep_eq (st : List String × ℕ × ℕ) (t : Option String) :
    volStep st t = (st.1 ++ volComments t, st.2.1 + volScore t, st.2.2 + volCount t) := by
  cases t with
  | none => simp [volStep, volComments, volScore, volCount]
  | some v =>
    simp only [volStep, volComments, volScore, volCount]
    split_ifs <;> simp

/-- The sequential evaluator computes the block-wise comments, the sum of
the block scores, and the guarded average. -/
theorem tcwt_eq (ind : TechIndicators) :
    technical_compare_with_threshold ind =
      (techComments ind, techTotal ind,
        if 0 < techValidCount ind then (techTotal ind : ℚ) / (techValidCount ind : ℚ) else 0) := by
  simp only [technical_compare_with_threshold, rsiStep_eq, macdStep_eq, smaStep_eq,
    adxStep_eq, volStep_eq, techComments, techTotal, techValidCount]
  simp [List.append_assoc, Nat.add_assoc]

/-! ### Lemmas: the fundamental scoring loop -/

/-- The fold accumulates exactly the present-metric scores and counts the
present metrics; missing metrics contribute nothing. -/
theorem fundFold_spec (ms : List (String × Option ℚ)) :
    ∀ st : List String × ℕ × ℕ,
      ((ms.foldl fundStep st).2.1 = st.2.1 + (presentScores ms).sum) ∧
      ((ms.foldl fundStep st).2.2 = st.2.2 + (ms.filter (fun kv => kv.2.isSome)).length) := by
  induction ms with
  | nil => intro st; simp [presentScores]
  | cons kv ms ih =>
    intro st
    obtain ⟨k, v⟩ := kv
    cases v with
    | none =>
      have h := ih (fundStep st (k, none))
      simp only [List.foldl_cons] at *
      simp [fundStep, presentScores] at h ⊢
      exact ⟨h.1, h.2⟩
    | some q =>
      have h := ih (fundStep st (k, some q))
      simp only [List.foldl_cons] at *
      simp [fundStep, presentScores] at h ⊢
      constructor
      · rw [h.1]; ring
      · rw [h.2]; ring

/-- Fields of the equity analysis determined by the fundamental fold. -/
theorem aea_fund_fields (info : Info) (td : Option TechIndicators) :
    (advanced_equity_analysis info td).fundamental_total_score = fundTotal info ∧
    (advanced_equity_analysis info td).fundamental_avg_score =
      (if 0 < fundCount info then (fundTotal info : ℚ) / (fundCount info : ℚ) else 0) ∧
    (advanced_equity_analysis info td).fundamental_rating =
      (if 0 < fundCount info then
        score_to_rating ((fundTotal info : ℚ) / (fundCount info : ℚ)) else "無法評級") := by
  have h := fundFold_spec (equityMetrics info)
    (["**[基本面分析] " ++ info.symbol.getD "UNKNOWN" ++ " / " ++ info.shortName.getD "" ++ "**"], 0, 0)
  refine ⟨?_, ?_, ?_⟩
  · show ((equityMetrics info).foldl fundStep _).2.1 = fundTotal info
    rw [h.1]; simp [fundTotal]
  · show (if 0 < ((equityMetrics info).foldl fundStep _).2.2 then
        (((equityMetrics info).foldl fundStep _).2.1 : ℚ) /
          (((equityMetrics info).foldl fundStep _).2.2 : ℚ) else 0) = _
    rw [h.1, h.2]; simp [fundTotal, fundCount]
  · show (if 0 < ((equityMetrics info).foldl fundStep _).2.2 then
        score_to_rating _ else "無法評級") = _
    rw [h.1, h.2]
    by_cases hc : 0 < ((equityMetrics info).filter (fun kv => kv.2.isSome)).length
    · simp [fundTotal, fundCount, hc]
    · simp [fundTotal, fundCount, hc]

/-! ### Lemmas: the dynamic model agrees with the typed model -/

/-- On a numeric value the dynamic classifier never raises and agrees with
the typed classifier. -/
theorem pyCwt_num (q : ℚ) (k : String) :
    pyCwt (.num q) k = .ok (compare_with_threshold (some q) k) := by
  cases h : THRESHOLDS.lookup k with
  | none => simp [pyCwt, compare_with_threshold, h]
  | some p => simp [pyCwt, h]

/-- On a numeric value the dynamic loop body never raises and agrees with
the typed loop body. -/
theorem pyFundStep_num (st : List String × ℕ × ℕ) (k : String) (q : ℚ) :
    pyFundStep st (k, .num q) = .ok (fundStep st (k, some q)) := by
  simp [pyFundStep, pyCwt_num, fundStep, Except.map]

/-- On an absent value the dynamic loop body records a missing metric,
exactly as the typed loop body does. -/
theorem pyFundStep_none (st : List String × ℕ × ℕ) (k : String) :
    pyFundStep st (k, .pynone) = .ok (fundStep st (k, none)) := by
  simp [pyFundStep, fundStep]

/-- A metric list free of string values is scored without raising, with the
typed fold as result. -/
theorem pyFold_ok (ms : List (String × PyVal)) :
    ∀ st : List String × ℕ × ℕ, (∀ kv ∈ ms, isNumOrNone kv.2 = true) →
      ms.foldlM pyFundStep st = .ok ((ms.map demoteKV).foldl fundStep st) := by
  induction ms with
  | nil => intro st _; rfl
  | cons kv ms ih =>
    intro st hall
    obtain ⟨k, v⟩ := kv
    have hv := hall (k, v) (List.mem_cons_self _ _)
    cases v with
    | num q =>
      simp only [List.foldlM_cons, pyFundStep_num]
      rw [show ∀ a b, (Except.ok a : Except String (List String × ℕ × ℕ)) >>= b = b a from
        fun _ _ => rfl]
      rw [ih (fundStep st (k, some q)) (fun x hx => hall x (List.mem_cons_of_mem _ hx))]
      simp [demoteKV]
    | str s => simp [isNumOrNone] at hv
    | pynone =>
      simp only [List.foldlM_cons, pyFundStep_none]
      rw [show ∀ a b, (Except.ok a : Except String (List String × ℕ × ℕ)) >>= b = b a from
        fun _ _ => rfl]
      rw [ih (fundStep st (k, none)) (fun x hx => hall x (List.mem_cons_of_mem _ hx))]
      simp [demoteKV]

/-! ### Lemmas: threshold classification -/

/-- A successful lookup comes from a row of the table. -/
theorem lookup_mem {l : List (String × ℚ × ℚ)} {k : String} {p : ℚ × ℚ}
    (h : l.lookup k = some p) : (k, p) ∈ l := by
  induction l with
  | nil =>
    rw [List.lookup_nil] at h
    exact Option.noConfusion h
  | cons e es ih =>
    obtain ⟨k', v⟩ := e
    rw [List.lookup_cons] at h
    by_cases hk : k = k'
    · subst hk
      simp at h
      subst h
      exact List.mem_cons_self _ _
    · rw [beq_eq_false_iff_ne.2 hk] at h
      simp at h
      exact List.mem_cons_of_mem _ (ih h)

/-- Every band of the fundamental table has its low bound at or below its
high bound. -/
theorem thresholds_lo_le_hi (k : String) (lo hi : ℚ)
    (h : THRESHOLDS.lookup k = some (lo, hi)) : lo ≤ hi := by
  have hm := lookup_mem h
  simp only [THRESHOLDS, List.mem_cons, List.not_mem_nil, or_false] at hm
  rcases hm with h1 | h1 | h1 | h1 | h1 | h1 | h1 | h1 | h1 | h1 | h1 | h1 <;>
    (rw [Prod.ext_iff] at h1; rw [Prod.ext_iff] at h1) <;>
    obtain ⟨-, h2, h3⟩ := h1 <;> simp at h2 h3 <;> rw [h2, h3] <;> norm_num

/-- No metric key is in both direction sets. -/
theorem more_not_less (k : String) (hk : k ∈ more_is_better) : k ∉ less_is_better := by
  fin_cases hk <;> decide

/-- Classification of a metric where a low value is favourable: below the
band scores 10 at level LOW, above it scores 2 at level HIGH, inside it
scores 5 at level MID. -/
theorem cwt_less_spec (k : String) (hk : k ∈ less_is_better) (lo hi : ℚ)
    (h : THRESHOLDS.lookup k = some (lo, hi)) (v : ℚ) :
    (v < lo → (compare_with_threshold (some v) k).1 = some "LOW" ∧
      (compare_with_threshold (some v) k).2.2 = 10) ∧
    (v > hi → (compare_with_threshold (some v) k).1 = some "HIGH" ∧
      (compare_with_threshold (some v) k).2.2 = 2) ∧
    (lo ≤ v → v ≤ hi → (compare_with_threshold (some v) k).1 = some "MID" ∧
      (compare_with_threshold (some v) k).2.2 = 5) := by
  have hle := thresholds_lo_le_hi k lo hi h
  refine ⟨fun hv => ?_, fun hv => ?_, fun h1 h2 => ?_⟩
  · simp [compare_with_threshold, h, hk, hv]
  · have hnl : ¬ v < lo := not_lt.2 (le_trans hle (le_of_lt hv))
    simp [compare_with_threshold, h, hk, hv, hnl]
  · have hnl : ¬ v < lo := not_lt.2 h1
    have hnh : ¬ v > hi := not_lt.2 h2
    simp [compare_with_threshold, h, hk, hnl, hnh]

/-- Classification of a metric where a high value is favourable: below the
band scores 2 at level LOW, above it scores 10 at level HIGH, inside it
scores 5 at level MID. -/
theorem cwt_more_spec (k : String) (hk : k ∈ more_is_better) (lo hi : ℚ)
    (h : THRESHOLDS.lookup k = some (lo, hi)) (v : ℚ) :
    (v < lo → (compare_with_threshold (some v) k).1 = some "LOW" ∧
      (compare_with_threshold (some v) k).2.2 = 2) ∧
    (v > hi → (compare_with_threshold (some v) k).1 = some "HIGH" ∧
      (compare_with_threshold (some v) k).2.2 = 10) ∧
    (lo ≤ v → v ≤ hi → (compare_with_threshold (some v) k).1 = some "MID" ∧
      (compare_with_threshold (some v) k).2.2 = 5) := by
  have hle := thresholds_lo_le_hi k lo hi h
  have hkn := more_not_less k hk
  refine ⟨fun hv => ?_, fun hv => ?_, fun h1 h2 => ?_⟩
  · simp [compare_with_threshold, h, hk, hkn, hv]
  · have hnl : ¬ v < lo := not_lt.2 (le_trans hle (le_of_lt hv))
    simp [compare_with_threshold, h, hk, hkn, hv, hnl]
  · have hnl : ¬ v < lo := not_lt.2 h1
    have hnh : ¬ v > hi := not_lt.2 h2
    simp [compare_with_threshold, h, hk, hkn, hnl, hnh]

/-! ### Lemmas: stable descending sort -/

/-- Inserting permutes with consing. -/
theorem insertDesc_perm (r : OverallResult) (l : List OverallResult) :
    (insertDesc r l).Perm (r :: l) := by
  induction l with
  | nil => exact List.Perm.refl _
  | cons x xs ih =>
    by_cases hle : r.overall_avg_score ≤ x.overall_avg_score
    · simp only [insertDesc, if_pos hle]
      exact (ih.cons x).trans (List.Perm.swap _ _ _)
    · simp only [insertDesc, if_neg hle]
      exact List.Perm.refl _

/-- Members of an insertion are the new element and the old members. -/
theorem insertDesc_mem (y r : OverallResult) (l : List OverallResult) :
    y ∈ insertDesc r l ↔ y = r ∨ y ∈ l := by
  rw [(insertDesc_perm r l).mem_iff]
  simp

/-- Insertion preserves descending order of the overall averages. -/
theorem insertDesc_pairwise (r : OverallResult) (l : List OverallResult)
    (h : l.Pairwise (fun a b => b.overall_avg_score ≤ a.overall_avg_score)) :
    (insertDesc r l).Pairwise (fun a b => b.overall_avg_score ≤ a.overall_avg_score) := by
  induction l with
  | nil => simp [insertDesc]
  | cons x xs ih =>
    rw [List.pairwise_cons] at h
    by_cases hle : r.overall_avg_score ≤ x.overall_avg_score
    · simp only [insertDesc, if_pos hle]
      rw [List.pairwise_cons]
      refine ⟨?_, ih h.2⟩
      intro y hy
      rcases (insertDesc_mem y r xs).1 hy with rfl | hy'
      · exact hle
      · exact h.1 y hy'
    · simp only [insertDesc, if_neg hle]
      rw [List.pairwise_cons]
      refine ⟨?_, List.pairwise_cons.2 ⟨h.1, h.2⟩⟩
      intro y hy
      rcases List.mem_cons.1 hy with rfl | hy'
      · exact le_of_lt (lt_of_not_le hle)
      · exact le_trans (h.1 y hy') (le_of_lt (lt_of_not_le hle))

/-- The sorting fold keeps all elements (as a permutation). -/
theorem sortAux_perm :
    ∀ (l acc : List OverallResult),
      (l.foldl (fun a r => insertDesc r a) acc).Perm (acc ++ l) := by
  intro l
  induction l with
  | nil => intro acc; simp
  | cons x xs ih =>
    intro acc
    rw [List.foldl_cons]
    exact (ih (insertDesc x acc)).trans
      (((insertDesc_perm x acc).append_right xs).trans List.perm_middle.symm)

/-- The sorting fold produces a descending list when the accumulator is
descending. -/
theorem sortAux_pairwise :
    ∀ (l acc : List OverallResult),
      acc.Pairwise (fun a b => b.overall_avg_score ≤ a.overall_avg_score) →
      (l.foldl (fun a r => insertDesc r a) acc).Pairwise
        (fun a b => b.overall_avg_score ≤ a.overall_avg_score) := by
  intro l
  induction l with
  | nil => intro acc h; simpa using h
  | cons x xs ih =>
    intro acc h
    rw [List.foldl_cons]
    exact ih _ (insertDesc_pairwise x acc h)

/-- Inserting an element whose key differs from the filter key leaves the
filtered sublist unchanged. -/
theorem filter_insertDesc_ne (kq : ℚ) (r : OverallResult)
    (hr : r.overall_avg_score ≠ kq) (l : List OverallResult) :
    (insertDesc r l).filter (fun x => decide (x.overall_avg_score = kq)) =
      l.filter (fun x => decide (x.overall_avg_score = kq)) := by
  induction l with
  | nil => simp [insertDesc, hr]
  | cons x xs ih =>
    by_cases hle : r.overall_avg_score ≤ x.overall_avg_score
    · simp only [insertDesc, if_pos hle]
      cases hx : decide (x.overall_avg_score = kq) <;>
        simp [List.filter_cons, hx, ih]
    · simp only [insertDesc, if_neg hle]
      simp [List.filter_cons, hr]

/-- Inserting an element with the filter key appends it at the end of the
filtered sublist (it goes after every equal-key element). -/
theorem filter_insertDesc_eq (kq : ℚ) (r : OverallResult)
    (hr : r.overall_avg_score = kq) (l : List OverallResult)
    (hs : l.Pairwise (fun a b => b.overall_avg_score ≤ a.overall_avg_score)) :
    (insertDesc r l).filter (fun x => decide (x.overall_avg_score = kq)) =
      l.filter (fun x => decide (x.overall_avg_score = kq)) ++ [r] := by
  induction l with
  | nil => simp [insertDesc, hr]
  | cons x xs ih =>
    rw [List.pairwise_cons] at hs
    by_cases hle : r.overall_avg_score ≤ x.overall_avg_score
    · simp only [insertDesc, if_pos hle]
      cases hx : decide (x.overall_avg_score = kq) <;>
        simp [List.filter_cons, hx, ih hs.2]
    · simp only [insertDesc, if_neg hle]
      have hlt : x.overall_avg_score < r.overall_avg_score := lt_of_not_le hle
      have hall : ∀ y ∈ x :: xs, ¬ y.overall_avg_score = kq := by
        intro y hy
        rcases List.mem_cons.1 hy with rfl | hy'
        · exact ne_of_lt (hr ▸ hlt)
        · exact ne_of_lt (hr ▸ lt_of_le_of_lt (hs.1 y hy') hlt)
      have hnil : (x :: xs).filter (fun x => decide (x.overall_avg_score = kq)) = [] :=
        List.filter_eq_nil_iff.2 (fun a ha => by simp [hall a ha])
      simp [List.filter_cons, hr, hnil]

/-- The sorting fold preserves each equal-key sublist in input order. -/
theorem sortAux_filter (kq : ℚ) :
    ∀ (l acc : List OverallResult),
      acc.Pairwise (fun a b => b.overall_avg_score ≤ a.overall_avg_score) →
      (l.foldl (fun a r => insertDesc r a) acc).filter
          (fun x => decide (x.overall_avg_score = kq)) =
        acc.filter (fun x => decide (x.overall_avg_score = kq)) ++
          l.filter (fun x => decide (x.overall_avg_score = kq)) := by
  intro l
  induction l with
  | nil => intro acc _; simp
  | cons x xs ih =>
    intro acc h
    rw [List.foldl_cons, ih _ (insertDesc_pairwise x acc h)]
    cases hx : decide (x.overall_avg_score = kq) with
    | true =>
      rw [filter_insertDesc_eq kq x (of_decide_eq_true hx) acc h]
      simp [List.filter_cons, hx]
    | false =>
      rw [filter_insertDesc_ne kq x (of_decide_eq_false hx) acc]
      simp [List.filter_cons, hx]

/-! ### Lemmas: parsing the score tags back out of comment strings -/

/-- Digit characters are never an opening parenthesis. -/
theorem digitChar_ne_paren (n : ℕ) : digitChar n ≠ '(' := by
  rcases n with _ | _ | _ | _ | _ | _ | _ | _ | _ | _ | m
  · decide
  · decide
  · decide
  · decide
  · decide
  · decide
  · decide
  · decide
  · decide
  · decide
  · show ('0' : Char) ≠ '('
    decide

/-- Digit expansions contain no opening parenthesis. -/
theorem natDigitsAux_ne_paren :
    ∀ (fuel n : ℕ), ∀ c ∈ natDigitsAux fuel n, c ≠ '(' := by
  intro fuel
  induction fuel with
  | zero => intro n c hc; simp [natDigitsAux] at hc
  | succ f ih =>
    intro n c hc
    simp only [natDigitsAux] at hc
    by_cases h : n < 10
    · rw [if_pos h] at hc
      simp at hc
      subst hc
      exact digitChar_ne_paren _
    · rw [if_neg h] at hc
      rcases List.mem_append.1 hc with h1 | h1
      · exact ih _ c h1
      · simp at h1
        subst h1
        exact digitChar_ne_paren _

/-- Concatenation preserves freedom from opening parentheses. -/
theorem no_paren_append {a b : List Char} (ha : ∀ c ∈ a, c ≠ '(')
    (hb : ∀ c ∈ b, c ≠ '(') : ∀ c ∈ a ++ b, c ≠ '(' :=
  fun c hc => (List.mem_append.1 hc).elim (ha c) (hb c)

/-- Two-decimal displays contain no opening parenthesis. -/
theorem fmt2_ne_paren (q : ℚ) : ∀ c ∈ (fmt2 q).data, c ≠ '(' := by
  simp only [fmt2, String.data_append]
  refine no_paren_append (no_paren_append (no_paren_append (no_paren_append ?_ ?_) ?_) ?_) ?_
  · by_cases h : roundHalfEven (q * 100) < 0 <;> simp only [h, if_true, if_false] <;> decide
  · exact natDigitsAux_ne_paren _ _
  · decide
  · by_cases h : (roundHalfEven (q * 100)).natAbs % 100 < 10 <;>
      simp only [h, if_true, if_false] <;> decide
  · exact natDigitsAux_ne_paren _ _

/-- A prefix check fails on lists with different heads. -/
theorem isPrefixOf_cons_false {a b : Char} (h : a ≠ b) (l m : List Char) :
    (a :: l).isPrefixOf (b :: m) = false := by
  show (a == b && l.isPrefixOf m) = false
  rw [beq_eq_false_iff_ne.2 h]
  rfl

/-- A list is a (boolean) prefix of itself followed by anything. -/
theorem isPrefixOf_append_self (l r : List Char) : l.isPrefixOf (l ++ r) = true :=
  List.isPrefixOf_iff_prefix.2 (List.prefix_append l r)

/-- The split worker passes over a segment free of the separator head
without cutting. -/
theorem pySplitAux_no_paren (sep' : List Char) :
    ∀ (s : List Char) (fuel : ℕ) (acc : List Char), s.length ≤ fuel →
      (∀ c ∈ s, c ≠ '(') →
      pySplitAux ('(' :: sep') fuel s acc = [acc.reverse ++ s] := by
  intro s
  induction s with
  | nil =>
    intro fuel acc _ _
    cases fuel <;> simp [pySplitAux]
  | cons c cs ih =>
    intro fuel acc hf hs
    cases fuel with
    | zero => simp at hf
    | succ f =>
      have hc : c ≠ '(' := hs c (List.mem_cons_self _ _)
      simp only [pySplitAux]
      rw [isPrefixOf_cons_false (fun h => hc h.symm) sep' cs]
      rw [ih f (c :: acc) (by simpa using Nat.lt_succ_iff.1 (Nat.lt_of_lt_of_le (Nat.lt_succ_self _) hf))
        (fun x hx => hs x (List.mem_cons_of_mem _ hx))]
      simp

/-- The split worker cuts exactly at the separator when the separator head
occurs nowhere else. -/
theorem pySplitAux_cut (sep' : List Char) :
    ∀ (u t : List Char) (fuel : ℕ) (acc : List Char),
      (u ++ ('(' :: sep') ++ t).length ≤ fuel →
      (∀ c ∈ u, c ≠ '(') → (∀ c ∈ t, c ≠ '(') →
      pySplitAux ('(' :: sep') fuel (u ++ ('(' :: sep') ++ t) acc =
        [acc.reverse ++ u, t] := by
  intro u
  induction u with
  | nil =>
    intro t fuel acc hf _ ht
    cases fuel with
    | zero => simp at hf
    | succ f =>
      show pySplitAux ('(' :: sep') (f + 1) (('(' :: sep') ++ t) acc = _
      simp only [pySplitAux]
      have hpre : ('(' :: sep').isPrefixOf ('(' :: List.append sep' t) = true :=
        isPrefixOf_append_self ('(' :: sep') t
      rw [if_pos hpre]
      have hlen : t.length ≤ f := by
        simp only [List.nil_append, List.length_append, List.length_cons] at hf
        omega
      have hdrop : List.drop ('(' :: sep').length ('(' :: List.append sep' t) = t :=
        List.drop_left ('(' :: sep') t
      rw [hdrop, pySplitAux_no_paren sep' t f [] hlen ht]
      simp
  | cons c u' ih =>
    intro t fuel acc hf hu ht
    cases fuel with
    | zero => simp at hf
    | succ f =>
      have hc : c ≠ '(' := hu c (List.mem_cons_self _ _)
      show pySplitAux ('(' :: sep') (f + 1) (c :: (u' ++ ('(' :: sep') ++ t)) acc = _
      simp only [pySplitAux]
      rw [isPrefixOf_cons_false (fun h => hc h.symm)]
      rw [ih t f (c :: acc)
        (by simp only [List.length_append, List.length_cons] at hf ⊢; omega)
        (fun x hx => hu x (List.mem_cons_of_mem _ hx)) ht]
      simp

/-- The Python split of `u ++ "(score=" ++ t` with neither `u` nor `t`
containing an opening parenthesis is exactly `[u, t]`. -/
theorem pySplit_cut (u t : List Char) (hu : ∀ c ∈ u, c ≠ '(')
    (ht : ∀ c ∈ t, c ≠ '(') :
    pySplit "(score=".data (u ++ "(score=".data ++ t) = [u, t] := by
  have hsep : "(score=".data = '(' :: "score=".data := rfl
  rw [pySplit, hsep]
  rw [show u ++ ('(' :: "score=".data) ++ t = u ++ (('(' :: "score=".data) ++ t) from
    (List.append_assoc _ _ _)]
  rw [show u ++ (('(' :: "score=".data) ++ t) = (u ++ ('(' :: "score=".data) ++ t) from
    (List.append_assoc _ _ _).symm]
  rw [pySplitAux_cut "score=".data u t _ [] (Nat.le_succ _) hu ht]
  simp

/-- Parsing the score tag of a comment of the shape
`u ++ "(score=" ++ t` recovers the number encoded in `t`. -/
theorem parseScoreTag_cut (u : String) (m t : List Char) (n : ℕ)
    (hu : ∀ c ∈ u.data, c ≠ '(')
    (hm : ∀ c ∈ m, c ≠ '(') (ht : ∀ c ∈ t, c ≠ '(')
    (hp : pyInt (rstripParen t) = some n) (tail : String)
    (htail : tail.data = m ++ "(score=".data ++ t) :
    parseScoreTag (u ++ tail) = some n := by
  have hdata : (u ++ tail).data = (u.data ++ m) ++ "(score=".data ++ t := by
    rw [String.data_append, htail]
    simp [List.append_assoc]
  rw [parseScoreTag, hdata, pySplit_cut (u.data ++ m) t (no_paren_append hu hm) ht]
  simpa using hp

/-- A substring of the tail is a substring of the whole. -/
theorem infixOfB_append_right (pat l r : List Char) (h : infixOfB pat r = true) :
    infixOfB pat (l ++ r) = true := by
  induction l with
  | nil => simpa
  | cons c cs ih => simp [infixOfB, ih]

/-- A substring of the tail string is found in the concatenation. -/
theorem strContains_append (u tail pat : String) (h : strContains tail pat = true) :
    strContains (u ++ tail) pat = true := by
  simp only [strContains, String.data_append]
  exact infixOfB_append_right _ _ _ h

/-- A comment carrying a parsable score tag contributes it. -/
theorem techScoresOf_scored (s : String) (n : ℕ)
    (h1 : strContains s "score=" = true) (h2 : parseScoreTag s = some n) :
    techScoresOf [s] = [some n] := by
  simp [techScoresOf, h1, h2]

/-- A comment without the tag contributes nothing. -/
theorem techScoresOf_missing (s : String) (h : strContains s "score=" = false) :
    techScoresOf [s] = [] := by
  simp [techScoresOf, h]

/-- The comprehension distributes over concatenation. -/
theorem techScoresOf_append (a b : List String) :
    techScoresOf (a ++ b) = techScoresOf a ++ techScoresOf b := by
  simp [techScoresOf, List.filter_append]

/-- A comment of the shape `pre ++ fmt2 v ++ tail` with the score tag inside
`tail` parses back to the tagged number. -/
theorem techScoresOf_fmt2_comment (pre : String) (v : ℚ) (tail : String)
    (m t : List Char) (n : ℕ)
    (hpre : ∀ c ∈ pre.data, c ≠ '(')
    (htail : tail.data = m ++ "(score=".data ++ t)
    (hm : ∀ c ∈ m, c ≠ '(') (ht : ∀ c ∈ t, c ≠ '(')
    (hp : pyInt (rstripParen t) = some n)
    (hcontains : strContains tail "score=" = true) :
    techScoresOf [pre ++ fmt2 v ++ tail] = [some n] := by
  apply techScoresOf_scored
  · exact strContains_append _ _ _ hcontains
  · exact parseScoreTag_cut (pre ++ fmt2 v) m t n
      (by rw [String.data_append]; exact no_paren_append hpre (fmt2_ne_paren v))
      hm ht hp tail htail

/-- The oscillator comments parse back to the oscillator scores. -/
theorem rsi_parsed (r : Option ℚ) :
    techScoresOf (rsiComments r) = (rsiScores r).map some := by
  cases r with
  | none =>
    show techScoresOf ["- RSI: 資料缺失"] = List.map some []
    rw [techScoresOf_missing _ (by decide)]
    rfl
  | some v =>
    simp only [rsiComments, rsiScores]
    split_ifs
    · exact techScoresOf_fmt2_comment "- RSI: " v "（超賣，可能反彈） (score=8)"
        "（超賣，可能反彈） ".data "8)".data 8
        (by decide) (by decide) (by decide) (by decide) (by decide) (by decide)
    · exact techScoresOf_fmt2_comment "- RSI: " v "（超買，可能回調） (score=6)"
        "（超買，可能回調） ".data "6)".data 6
        (by decide) (by decide) (by decide) (by decide) (by decide) (by decide)
    · exact techScoresOf_fmt2_comment "- RSI: " v "（正常範圍） (score=7)"
        "（正常範圍） ".data "7)".data 7
        (by decide) (by decide) (by decide) (by decide) (by decide) (by decide)

/-- The trend/signal comments parse back to the trend/signal scores. -/
theorem macd_parsed (m s : Option ℚ) :
    techScoresOf (macdComments m s) = (macdScores m s).map some := by
  cases m <;> cases s <;> simp only [macdComments, macdScores] <;> (try split_ifs) <;> decide

/-- The moving-average comments parse back to the moving-average scores. -/
theorem sma_parsed (a b : Option ℚ) :
    techScoresOf (smaComments a b) = (smaScores a b).map some := by
  cases a <;> cases b <;> simp only [smaComments, smaScores] <;> (try split_ifs) <;> decide

/-- The trend-strength comments parse back to the trend-strength scores. -/
theorem adx_parsed (a : Option ℚ) :
    techScoresOf (adxComments a) = (adxScores a).map some := by
  cases a with
  | none =>
    show techScoresOf ["- ADX: 資料缺失"] = List.map some []
    rw [techScoresOf_missing _ (by decide)]
    rfl
  | some v =>
    simp only [adxComments, adxScores]
    split_ifs
    · exact techScoresOf_fmt2_comment "- ADX: " v "（趨勢弱） (score=5)"
        "（趨勢弱） ".data "5)".data 5
        (by decide) (by decide) (by decide) (by decide) (by decide) (by decide)
    · exact techScoresOf_fmt2_comment "- ADX: " v "（趨勢強） (score=8)"
        "（趨勢強） ".data "8)".data 8
        (by decide) (by decide) (by decide) (by decide) (by decide) (by decide)
    · exact techScoresOf_fmt2_comment "- ADX: " v "（趨勢中等） (score=6)"
        "（趨勢中等） ".data "6)".data 6
        (by decide) (by decide) (by decide) (by decide) (by decide) (by decide)

/-- The volume-trend comments parse back to the volume-trend scores. -/
theorem vol_parsed (t : Option String) :
    techScoresOf (volComments t) = (volScores t).map some := by
  cases t with
  | none =>
    show techScoresOf ["- 成交量趨勢: 資料缺失"] = List.map some []
    rw [techScoresOf_missing _ (by decide)]
    rfl
  | some v =>
    simp only [volComments, volScores]
    split_ifs <;> decide

/-- The whole comment list parses back to the whole score list. -/
theorem techScoresOf_techComments (ind : TechIndicators) :
    techScoresOf (techComments ind) = (techScoreList ind).map some := by
  simp only [techComments, techScoreList, techScoresOf_append, List.map_append,
    rsi_parsed, macd_parsed, sma_parsed, adx_parsed, vol_parsed]

/-- Folding the optional sum over definite values is the plain sum. -/
theorem optSum_aux (l : List ℕ) :
    ∀ a : ℕ, List.foldl (fun a o => a + o.getD 0) a (l.map some) = a + l.sum := by
  induction l with
  | nil => intro a; simp
  | cons x xs ih => intro a; simp [ih, Nat.add_assoc]

/-- The optional sum of definite values is the plain sum. -/
theorem optSum_map_some (l : List ℕ) : optSum (l.map some) = l.sum := by
  simpa [optSum] using optSum_aux l 0

/-- Block score lists sum to the block scores and count the present
signals. -/
theorem rsiScores_sum (r : Option ℚ) :
    (rsiScores r).sum = rsiScore r ∧ (rsiScores r).length = rsiCount r := by
  cases r <;> simp [rsiScores, rsiScore, rsiCount]

/-- Trend/signal score list sums and counts. -/
theorem macdScores_sum (m s : Option ℚ) :
    (macdScores m s).sum = macdScore m s ∧ (macdScores m s).length = macdCount m s := by
  cases m <;> cases s <;> simp [macdScores, macdScore, macdCount]

/-- Moving-average score list sums and counts. -/
theorem smaScores_sum (a b : Option ℚ) :
    (smaScores a b).sum = smaScore a b ∧ (smaScores a b).length = smaCount a b := by
  cases a <;> cases b <;> simp [smaScores, smaScore, smaCount]

/-- Trend-strength score list sums and counts. -/
theorem adxScores_sum (a : Option ℚ) :
    (adxScores a).sum = adxScore a ∧ (adxScores a).length = adxCount a := by
  cases a <;> simp [adxScores, adxScore, adxCount]

/-- Volume-trend score list sums and counts. -/
theorem volScores_sum (t : Option String) :
    (volScores t).sum = volScore t ∧ (volScores t).length = volCount t := by
  cases t <;> simp [volScores, volScore, volCount]

/-- The full score list sums to the total. -/
theorem techScoreList_sum (ind : TechIndicators) :
    (techScoreList ind).sum = techTotal ind := by
  simp [techScoreList, techTotal, List.sum_append, (rsiScores_sum _).1,
    (macdScores_sum _ _).1, (smaScores_sum _ _).1, (adxScores_sum _).1,
    (volScores_sum _).1]
  omega

/-- The full score list counts the valid signals. -/
theorem techScoreList_length (ind : TechIndicators) :
    (techScoreList ind).length = techValidCount ind := by
  simp [techScoreList, techValidCount, (rsiScores_sum _).2,
    (macdScores_sum _ _).2, (smaScores_sum _ _).2, (adxScores_sum _).2,
    (volScores_sum _).2]
  omega

/-! ### Claim theorems -/

/-- Claim C1, counterexample: the claimed band rule asserts that an average
of 6 (which satisfies 3 ≤ avg < 8) rates "C", but the rating chain of the
script rates 6 as "B", so the claim as stated is false. -/
theorem c1_band_rule_counterexample :
    ((3 : ℚ) ≤ 6 ∧ (6 : ℚ) < 8) ∧ score_to_rating 6 ≠ "C" := by
  refine ⟨⟨by norm_num, by norm_num⟩, ?_⟩
  decide

/-- Claim C1, amended: the shared letter-rating chain maps avg ≥ 8 to "A",
5 ≤ avg < 8 to "B", 3 ≤ avg < 5 to "C" and avg < 3 to "D", with inclusive
lower boundaries (8 → "A", 5 → "B", 3 → "C", 2.999 → "D"); the fundamental,
technical and overall rating sites all use this chain. -/
theorem c1_band_rule :
    (∀ avg : ℚ,
      (8 ≤ avg → score_to_rating avg = "A") ∧
      (5 ≤ avg ∧ avg < 8 → score_to_rating avg = "B") ∧
      (3 ≤ avg ∧ avg < 5 → score_to_rating avg = "C") ∧
      (avg < 3 → score_to_rating avg = "D")) ∧
    (score_to_rating 8 = "A" ∧ score_to_rating 5 = "B" ∧
      score_to_rating 3 = "C" ∧ score_to_rating (2999 / 1000) = "D") ∧
    (∀ (info : Info) (td : Option TechIndicators), 0 < fundCount info →
      (advanced_equity_analysis info td).fundamental_rating =
        score_to_rating ((advanced_equity_analysis info td).fundamental_avg_score)) ∧
    (∀ tc : List String,
      (technicalSummary tc).2.2.2 = score_to_rating ((technicalSummary tc).2.2.1) ∨
      (technicalSummary tc).2.2.2 = "無法評級") ∧
    (∀ r : EquityResult, (add_overall r).overall_rating =
      score_to_rating ((add_overall r).overall_avg_score)) := by
  refine ⟨?_, ?_, ?_, ?_, fun r => rfl⟩
  · intro avg
    refine ⟨fun h => ?_, fun h => ?_, fun h => ?_, fun h => ?_⟩
    · simp [score_to_rating, h]
    · have h8 : ¬ (8 : ℚ) ≤ avg := not_le.2 h.2
      simp [score_to_rating, h8, h.1]
    · have h8 : ¬ (8 : ℚ) ≤ avg := not_le.2 (h.2.trans (by norm_num))
      have h5 : ¬ (5 : ℚ) ≤ avg := not_le.2 h.2
      simp [score_to_rating, h8, h5, h.1]
    · have h8 : ¬ (8 : ℚ) ≤ avg := not_le.2 (h.trans (by norm_num))
      have h5 : ¬ (5 : ℚ) ≤ avg := not_le.2 (h.trans (by norm_num))
      have h3 : ¬ (3 : ℚ) ≤ avg := not_le.2 h
      simp [score_to_rating, h8, h5, h3]
  · refine ⟨by decide, by decide, by decide, by norm_num [score_to_rating]⟩
  · intro info td hc
    have h := aea_fund_fields info td
    rw [h.2.2, h.2.1, if_pos hc, if_pos hc]
  · intro tc
    simp only [technicalSummary]
    split_ifs <;> first | exact Or.inl rfl | exact Or.inr rfl

/-- Claim C1, witness: the amended rule applied at an average of 6 gives
"B". -/
theorem c1_band_rule_witness : score_to_rating 6 = "B" :=
  (c1_band_rule.1 6).2.1 ⟨by norm_num, by norm_num⟩

/-- Claim C2: each fundamental metric with a present value and a band is
classified LOW/10, HIGH/2, MID/5 when lower values are favourable, and
LOW/2, HIGH/10, MID/5 when higher values are favourable. -/
theorem c2_threshold_classification :
    (∀ (k : String) (lo hi v : ℚ), k ∈ less_is_better →
      THRESHOLDS.lookup k = some (lo, hi) →
      (v < lo → (compare_with_threshold (some v) k).1 = some "LOW" ∧
        (compare_with_threshold (some v) k).2.2 = 10) ∧
      (v > hi → (compare_with_threshold (some v) k).1 = some "HIGH" ∧
        (compare_with_threshold (some v) k).2.2 = 2) ∧
      (lo ≤ v → v ≤ hi → (compare_with_threshold (some v) k).1 = some "MID" ∧
        (compare_with_threshold (some v) k).2.2 = 5)) ∧
    (∀ (k : String) (lo hi v : ℚ), k ∈ more_is_better →
      THRESHOLDS.lookup k = some (lo, hi) →
      (v < lo → (compare_with_threshold (some v) k).1 = some "LOW" ∧
        (compare_with_threshold (some v) k).2.2 = 2) ∧
      (v > hi → (compare_with_threshold (some v) k).1 = some "HIGH" ∧
        (compare_with_threshold (some v) k).2.2 = 10) ∧
      (lo ≤ v → v ≤ hi → (compare_with_threshold (some v) k).1 = some "MID" ∧
        (compare_with_threshold (some v) k).2.2 = 5)) :=
  ⟨fun k lo hi v hk h => cwt_less_spec k hk lo hi h v,
   fun k lo hi v hk h => cwt_more_spec k hk lo hi h v⟩

/-- Claim C2, witness: PE below its band classifies LOW with score 10, ROE
above its band classifies HIGH with score 10. -/
theorem c2_threshold_classification_witness :
    (compare_with_threshold (some 5) "PE").1 = some "LOW" ∧
    (compare_with_threshold (some 5) "PE").2.2 = 10 ∧
    (compare_with_threshold (some 0.25) "ROE").1 = some "HIGH" ∧
    (compare_with_threshold (some 0.25) "ROE").2.2 = 10 := by
  have h1 := (c2_threshold_classification.1 "PE" 10 25 5 (by decide) rfl).1
    (by norm_num)
  have h2 := (c2_threshold_classification.2 "ROE" 0.1 0.2 0.25 (by decide) rfl).2.1
    (by norm_num)
  exact ⟨h1.1, h1.2, h2.1, h2.2⟩

/-- Claim C3: the ETF beta metric with band 0.8 to 1.2 classifies LOW with
score 6 below the band, HIGH with score 4 above it, and MID with score 8
inside it; the band interior midpoint scores 8. -/
theorem c3_etf_beta_band :
    (∀ v : ℚ,
      (v < 0.8 → (etf_compare_with_threshold (some v) "ETF_Beta3Y").1 = some "LOW" ∧
        (etf_compare_with_threshold (some v) "ETF_Beta3Y").2.2 = 6) ∧
      (v > 1.2 → (etf_compare_with_threshold (some v) "ETF_Beta3Y").1 = some "HIGH" ∧
        (etf_compare_with_threshold (some v) "ETF_Beta3Y").2.2 = 4) ∧
      (0.8 ≤ v → v ≤ 1.2 →
        (etf_compare_with_threshold (some v) "ETF_Beta3Y").1 = some "MID" ∧
        (etf_compare_with_threshold (some v) "ETF_Beta3Y").2.2 = 8)) ∧
    ((etf_compare_with_threshold (some ((0.8 + 1.2) / 2)) "ETF_Beta3Y").1 = some "MID" ∧
      (etf_compare_with_threshold (some ((0.8 + 1.2) / 2)) "ETF_Beta3Y").2.2 = 8) := by
  have hmain : ∀ v : ℚ,
      (v < 0.8 → (etf_compare_with_threshold (some v) "ETF_Beta3Y").1 = some "LOW" ∧
        (etf_compare_with_threshold (some v) "ETF_Beta3Y").2.2 = 6) ∧
      (v > 1.2 → (etf_compare_with_threshold (some v) "ETF_Beta3Y").1 = some "HIGH" ∧
        (etf_compare_with_threshold (some v) "ETF_Beta3Y").2.2 = 4) ∧
      (0.8 ≤ v → v ≤ 1.2 →
        (etf_compare_with_threshold (some v) "ETF_Beta3Y").1 = some "MID" ∧
        (etf_compare_with_threshold (some v) "ETF_Beta3Y").2.2 = 8) := by
    intro v
    have h : ETF_THRESHOLDS.lookup "ETF_Beta3Y" = some (0.8, 1.2) := rfl
    refine ⟨fun hv => ?_, fun hv => ?_, fun h1 h2 => ?_⟩
    · simp [etf_compare_with_threshold, h, hv]
    · have hnl : ¬ v < (0.8 : ℚ) := not_lt.2 (le_trans (by norm_num) (le_of_lt hv))
      simp [etf_compare_with_threshold, h, hv, hnl]
    · have hnl : ¬ v < (0.8 : ℚ) := not_lt.2 h1
      have hnh : ¬ v > (1.2 : ℚ) := not_lt.2 h2
      simp [etf_compare_with_threshold, h, hnl, hnh]
  exact ⟨hmain, (hmain ((0.8 + 1.2) / 2)).2.2 (by norm_num) (by norm_num)⟩

/-- Claim C3, witness: a beta of 0.5 classifies LOW with score 6. -/
theorem c3_etf_beta_band_witness :
    (etf_compare_with_threshold (some 0.5) "ETF_Beta3Y").1 = some "LOW" ∧
    (etf_compare_with_threshold (some 0.5) "ETF_Beta3Y").2.2 = 6 :=
  (c3_etf_beta_band.1 0.5).1 (by norm_num)

/-- Claim C4: the technical evaluator scores exactly the present signals by
the five independent rules, the returned total is the sum of the
contributing scores, and the average is total over valid count, with 0 when
no signal is valid. -/
theorem c4_technical_evaluator (ind : TechIndicators) :
    (technical_compare_with_threshold ind).2.1 = techTotal ind ∧
    (technical_compare_with_threshold ind).2.2 =
      (if 0 < techValidCount ind then (techTotal ind : ℚ) / (techValidCount ind : ℚ) else 0) ∧
    (techValidCount ind = 0 → (technical_compare_with_threshold ind).2.2 = 0) := by
  rw [tcwt_eq]
  refine ⟨rfl, rfl, fun h => ?_⟩
  simp [h]

/-- Claim C4, witness: a fully present snapshot evaluates to the sum of its
block scores. -/
theorem c4_technical_evaluator_witness :
    (technical_compare_with_threshold
        ⟨some 25, some 1, some 0.5, some 100, some 90, some 25, some "increasing"⟩).2.1 =
      techTotal ⟨some 25, some 1, some 0.5, some 100, some 90, some 25, some "increasing"⟩ :=
  (c4_technical_evaluator _).1

/-- Claim C5: every instrument of a processed batch carries an overall
average that is the mean of its fundamental and technical averages, an
overall total that is their sum, and an overall rating derived from the
overall average by the shared letter-band chain. -/
theorem c5_overall_blend :
    ∀ (rs : List EquityResult) (x : OverallResult), x ∈ process_batch rs →
      x.overall_avg_score = (x.fundamental_avg_score + x.technical_avg_score) / 2 ∧
      x.overall_total_score = x.fundamental_total_score + x.technical_total_score ∧
      x.overall_rating = score_to_rating x.overall_avg_score := by
  intro rs x hx
  simp only [process_batch, List.mem_map] at hx
  obtain ⟨r, -, rfl⟩ := hx
  exact ⟨rfl, rfl, rfl⟩

/-- Claim C5, witness: the blended fields of a sample instrument. -/
theorem c5_overall_blend_witness :
    (add_overall sampleEquityResult).overall_avg_score =
      ((add_overall sampleEquityResult).fundamental_avg_score +
        (add_overall sampleEquityResult).technical_avg_score) / 2 ∧
    (add_overall sampleEquityResult).overall_total_score =
      (add_overall sampleEquityResult).fundamental_total_score +
        (add_overall sampleEquityResult).technical_total_score ∧
    (add_overall sampleEquityResult).overall_rating =
      score_to_rating (add_overall sampleEquityResult).overall_avg_score :=
  c5_overall_blend [sampleEquityResult] (add_overall sampleEquityResult)
    (by simp [process_batch])

/-- Claim C6: the ranking is the input sorted by descending overall
average, it keeps every equal-key group in input order (stability), it is a
permutation of the input, and the three-instrument example with averages
5, 7, 5 ranks as Y, X, Z. -/
theorem c6_stable_ranking :
    (∀ l : List OverallResult, (sortDesc l).Pairwise
      (fun a b => b.overall_avg_score ≤ a.overall_avg_score)) ∧
    (∀ (l : List OverallResult) (k : ℚ),
      (sortDesc l).filter (fun x => decide (x.overall_avg_score = k)) =
        l.filter (fun x => decide (x.overall_avg_score = k))) ∧
    (∀ l : List OverallResult, (sortDesc l).Perm l) ∧
    sortDesc [sampleX, sampleY, sampleZ] = [sampleY, sampleX, sampleZ] ∧
    sampleX.overall_avg_score = 5 ∧ sampleY.overall_avg_score = 7 ∧
    sampleZ.overall_avg_score = 5 := by
  refine ⟨?_, ?_, ?_, ?_, rfl, rfl, rfl⟩
  · intro l
    exact sortAux_pairwise l [] (by simp)
  · intro l k
    have h := sortAux_filter k l [] (by simp)
    simpa [sortDesc] using h
  · intro l
    have h := sortAux_perm l []
    simpa [sortDesc] using h
  · decide

/-- Claim C7, counterexample: a snapshot whose PE field holds the string
"N/A" makes the fundamental scoring loop raise a TypeError (the comparison
of a string with a number), so a non-numeric metric value does throw. -/
theorem c7_nonnumeric_counterexample :
    py_score_fundamentals pyInfoStrPE = Except.error "TypeError" := rfl

/-- Claim C7, amended: scoring a metric whose raw value is absent never
throws (any snapshot free of string values is scored without raising); a
missing metric is recorded and contributes neither score nor count; a
snapshot with every fundamental metric missing gets total 0, average 0 and
the unratable rating; a snapshot with some metrics present gets its total
and average from exactly the present subset. -/
theorem c7_missing_metric_policy :
    (∀ pinfo : PyInfo, (∀ kv ∈ pyEquityMetrics pinfo, isNumOrNone kv.2 = true) →
      py_score_fundamentals pinfo =
        Except.ok (((pyEquityMetrics pinfo).map demoteKV).foldl fundStep ([], 0, 0))) ∧
    (∀ (info : Info) (td : Option TechIndicators),
      (∀ kv ∈ equityMetrics info, kv.2 = none) →
      (advanced_equity_analysis info td).fundamental_total_score = 0 ∧
      (advanced_equity_analysis info td).fundamental_avg_score = 0 ∧
      (advanced_equity_analysis info td).fundamental_rating = "無法評級") ∧
    (∀ (info : Info) (td : Option TechIndicators), 0 < fundCount info →
      (advanced_equity_analysis info td).fundamental_total_score = fundTotal info ∧
      (advanced_equity_analysis info td).fundamental_avg_score =
        (fundTotal info : ℚ) / (fundCount info : ℚ)) := by
  refine ⟨?_, ?_, ?_⟩
  · intro pinfo h
    exact pyFold_ok _ _ h
  · intro info td hall
    have h := aea_fund_fields info td
    have hcnt : fundCount info = 0 := by
      simp only [fundCount, List.length_eq_zero]
      refine List.filter_eq_nil_iff.2 ?_
      intro kv hkv
      simp [hall kv hkv]
    have htot : fundTotal info = 0 := by
      simp only [fundTotal, presentScores]
      rw [List.filterMap_eq_nil_iff.2 (fun kv hkv => by simp [hall kv hkv])]
      rfl
    refine ⟨?_, ?_, ?_⟩
    · rw [h.1, htot]
    · rw [h.2.1, hcnt]
      simp
    · rw [h.2.2, hcnt]
      simp
  · intro info td hc
    have h := aea_fund_fields info td
    exact ⟨h.1, by rw [h.2.1, if_pos hc]⟩

/-- Claim C7, witness: the all-absent snapshot scores without raising and
is unratable; the snapshot with one present metric averages over that
subset. -/
theorem c7_missing_metric_policy_witness :
    py_score_fundamentals
        ⟨.pynone, .pynone, .pynone, .pynone, .pynone, .pynone, .pynone,
         .pynone, .pynone, .pynone, .pynone, .pynone, .pynone, .pynone⟩ =
      Except.ok (((pyEquityMetrics
        ⟨.pynone, .pynone, .pynone, .pynone, .pynone, .pynone, .pynone,
         .pynone, .pynone, .pynone, .pynone, .pynone, .pynone, .pynone⟩).map demoteKV).foldl
          fundStep ([], 0, 0)) ∧
    (advanced_equity_analysis infoNone none).fundamental_avg_score = 0 ∧
    (advanced_equity_analysis infoNone none).fundamental_rating = "無法評級" ∧
    (advanced_equity_analysis infoDY none).fundamental_avg_score =
      (fundTotal infoDY : ℚ) / (fundCount infoDY : ℚ) :=
  ⟨c7_missing_metric_policy.1 _ (by decide),
   (c7_missing_metric_policy.2.1 infoNone none (by decide)).2.1,
   (c7_missing_metric_policy.2.1 infoNone none (by decide)).2.2,
   (c7_missing_metric_policy.2.2 infoDY none (by decide)).2⟩

/-- Claim C8: an instrument whose quote type is neither EQUITY nor ETF
yields a result carrying the ticker symbol and display name with all-zero
totals and averages and unratable ratings, and batch analysis treats every
instrument independently. -/
theorem c8_unknown_class :
    (∀ (sym : String) (info : Info) (td : Option TechIndicators),
      info.quoteType.getD "" ≠ "EQUITY" → info.quoteType.getD "" ≠ "ETF" →
      (analyze_ticker sym info td).symbol = sym ∧
      (analyze_ticker sym info td).shortName = info.shortName.getD "" ∧
      (analyze_ticker sym info td).fundamental_total_score = 0 ∧
      (analyze_ticker sym info td).fundamental_avg_score = 0 ∧
      (analyze_ticker sym info td).fundamental_rating = "無法評級" ∧
      (analyze_ticker sym info td).technical_total_score = 0 ∧
      (analyze_ticker sym info td).technical_avg_score = 0 ∧
      (analyze_ticker sym info td).technical_rating = "無法評級") ∧
    (∀ (items : List (String × Info × Option TechIndicators)) (i : ℕ),
      (batchAnalyze items)[i]? = items[i]?.map (fun t => analyze_ticker t.1 t.2.1 t.2.2)) := by
  constructor
  · intro sym info td h1 h2
    simp [analyze_ticker, h1, h2]
  · intro items i
    simp [batchAnalyze, List.getElem?_map]

/-- Claim C8, witness: a cryptocurrency ticker yields the unratable
zero result. -/
theorem c8_unknown_class_witness :
    (analyze_ticker "BTC-USD" infoCrypto none).symbol = "BTC-USD" ∧
    (analyze_ticker "BTC-USD" infoCrypto none).fundamental_rating = "無法評級" ∧
    (analyze_ticker "BTC-USD" infoCrypto none).technical_rating = "無法評級" := by
  have h := c8_unknown_class.1 "BTC-USD" infoCrypto none (by decide) (by decide)
  exact ⟨h.1, h.2.2.2.2.1, h.2.2.2.2.2.2.2⟩

/-- Claim C9: re-parsing the `(score=N)` suffixes out of the comment
strings of the technical evaluator recovers exactly the evaluator's own
scores: every parse succeeds, the parsed values sum to the returned total,
and their number is the valid count. -/
theorem c9_parse_roundtrip (ind : TechIndicators) :
    techScoresOf (technical_compare_with_threshold ind).1 = (techScoreList ind).map some ∧
    optSum (techScoresOf (technical_compare_with_threshold ind).1) =
      (technical_compare_with_threshold ind).2.1 ∧
    (techScoresOf (technical_compare_with_threshold ind).1).length = techValidCount ind := by
  have hc : (technical_compare_with_threshold ind).1 = techComments ind := by rw [tcwt_eq]
  have ht : (technical_compare_with_threshold ind).2.1 = techTotal ind := by rw [tcwt_eq]
  refine ⟨?_, ?_, ?_⟩
  · rw [hc, techScoresOf_techComments]
  · rw [hc, techScoresOf_techComments, optSum_map_some, techScoreList_sum, ht]
  · rw [hc, techScoresOf_techComments]
    simp [techScoreList_length]

/-- Claim C10: the dividend-yield value classified against its band is 100
times the raw field (likewise the ETF yield), and the scaling changes the
score, not only the display: a raw yield of 0.03 scores 5 after scaling
where the unscaled value would score 2. -/
theorem c10_yield_scaling :
    (∀ (info : Info) (y : ℚ), info.dividendYield = some y →
      (equityMetrics info).lookup "DividendYield" = some (some (y * 100))) ∧
    (∀ (info : Info) (y : ℚ), info.yieldField = some y →
      (etfMetrics info).lookup "ETF_Yield" = some (some (y * 100))) ∧
    ((advanced_equity_analysis infoDY none).fundamental_total_score = 5 ∧
      (compare_with_threshold (some 0.03) "DividendYield").2.2 = 2) ∧
    ((etfFundStep ([], 0, 0) ("ETF_Yield", some ((0.03 : ℚ) * 100))).2.1 = 5 ∧
      (etf_compare_with_threshold (some 0.03) "ETF_Yield").2.2 = 2) := by
  refine ⟨?_, ?_, ⟨?_, ?_⟩, ⟨?_, ?_⟩⟩
  · intro info y h
    have hl : (equityMetrics info).lookup "DividendYield" =
        some (info.dividendYield.map (fun v => v * 100)) := rfl
    rw [hl, h]
    rfl
  · intro info y h
    have hl : (etfMetrics info).lookup "ETF_Yield" =
        some (info.yieldField.map (fun v => v * 100)) := rfl
    rw [hl, h]
    rfl
  · rw [(aea_fund_fields infoDY none).1]
    have hps : presentScores (equityMetrics infoDY) =
        [(compare_with_threshold (some ((0.03 : ℚ) * 100)) "DividendYield").2.2] := rfl
    have h3 : ((0.03 : ℚ) * 100) = 3 := by norm_num
    rw [fundTotal, hps, h3]
    have hscore := (cwt_more_spec "DividendYield" (by decide) 2 6 rfl 3).2.2
      (by norm_num) (by norm_num)
    simp [hscore.2]
  · exact ((cwt_more_spec "DividendYield" (by decide) 2 6 rfl 0.03).1 (by norm_num)).2
  · have h3 : ((0.03 : ℚ) * 100) = 3 := by norm_num
    simp only [etfFundStep, h3]
    have h : ETF_THRESHOLDS.lookup "ETF_Yield" = some (2, 6) := rfl
    have hnl : ¬ (3 : ℚ) < 2 := by norm_num
    have hnh : ¬ (3 : ℚ) > 6 := by norm_num
    simp [etf_compare_with_threshold, h, hnl, hnh, etf_less_is_better, etf_more_is_better]
  · have h : ETF_THRESHOLDS.lookup "ETF_Yield" = some (2, 6) := rfl
    have hv : (0.03 : ℚ) < 2 := by norm_num
    simp [etf_compare_with_threshold, h, hv, etf_less_is_better, etf_more_is_better]

/-- Claim C10, witness: the scaled values appear in the metric dicts of the
concrete snapshots. -/
theorem c10_yield_scaling_witness :
    (equityMetrics infoDY).lookup "DividendYield" = some (some ((0.03 : ℚ) * 100)) ∧
    (etfMetrics infoEY).lookup "ETF_Yield" = some (some ((0.03 : ℚ) * 100)) :=
  ⟨c10_yield_scaling.1 infoDY 0.03 rfl, c10_yield_scaling.2.1 infoEY 0.03 rfl⟩
